import Mathlib

/-!
Shallow embedding of the transform-stack reconciliation engine of
AL_USDMaya (`AL/usdmaya/nodes/TransformationMatrix.cpp`).  The source file
contains two revisions of the engine: the current one (first part of the
file) and an older one (second part).  Definitions named `...Old` embed the
older revision; all other engine definitions embed the current revision.

Numeric values are modelled as exact integers (an exact-arithmetic
abstraction of the doubles of the source: every claim settled here depends
only on equality tests, additions and subtractions of values, never on
rounding).  Floating-point narrowing conversions (double to float / half /
int storage) and the fixed degree/radian scale factors are modelled by an
environment of deterministic conversion functions; the claims proved here
depend only on their determinism.  Transcendental host operations
(quaternion to Euler conversion, matrix composition and decomposition) are
likewise environment functions.
-/

namespace ALUsd

/-- A 3-component vector of exact integer values (models `MVector` /
`MPoint` / `GfVec3*`). -/
structure Q3 where
  x : Int
  y : Int
  z : Int
deriving DecidableEq

instance : Add Q3 := ⟨fun a b => ⟨a.x + b.x, a.y + b.y, a.z + b.z⟩⟩

instance : Sub Q3 := ⟨fun a b => ⟨a.x - b.x, a.y - b.y, a.z - b.z⟩⟩

/-- The zero vector. -/
def zero3 : Q3 := ⟨0, 0, 0⟩

/-- The all-ones vector (identity for scale). -/
def one3 : Q3 := ⟨1, 1, 1⟩

/-- A quaternion (models `MQuaternion`). -/
structure Q4 where
  x : Int
  y : Int
  z : Int
  w : Int
deriving DecidableEq

/-- The identity quaternion. -/
def idQ4 : Q4 := ⟨0, 0, 0, 1⟩

/-- Maya rotation orders (models `MEulerRotation::RotationOrder`). -/
inductive RotOrder
  | xyz | yzx | zxy | xzy | yxz | zyx
deriving DecidableEq

/-- An Euler rotation (models `MEulerRotation`). -/
structure Euler where
  x : Int
  y : Int
  z : Int
  ord : RotOrder
deriving DecidableEq

/-- The zero Euler rotation, order XYZ. -/
def zeroE : Euler := ⟨0, 0, 0, RotOrder.xyz⟩

/-- Componentwise Euler addition keeping the left order (as used by
`updateToTime`, which adds tweak components to a freshly read rotation). -/
def addE (a b : Euler) : Euler := ⟨a.x + b.x, a.y + b.y, a.z + b.z, a.ord⟩

/-- A 4x4 matrix of exact integer values (models `GfMatrix4d` /
`MMatrix`). -/
structure M4 where
  a00 : Int
  a01 : Int
  a02 : Int
  a03 : Int
  a10 : Int
  a11 : Int
  a12 : Int
  a13 : Int
  a20 : Int
  a21 : Int
  a22 : Int
  a23 : Int
  a30 : Int
  a31 : Int
  a32 : Int
  a33 : Int
deriving DecidableEq

/-- The identity matrix. -/
def idM4 : M4 := ⟨1,0,0,0, 0,1,0,0, 0,0,1,0, 0,0,0,1⟩

/-- The shear matrix built by `pushShear`: coefficients at entries
(1,0), (2,0) and (2,1), identity elsewhere. -/
def shearM4 (v : Q3) : M4 := ⟨1,0,0,0, v.x,1,0,0, v.y,v.z,1,0, 0,0,0,1⟩

/-- The operation-name tokens used by the schema tables
(`UsdMayaXformStackTokens`), plus `other` for unrecognized names. -/
inductive TokName
  | translate | pivot | rotatePivotTranslate | rotatePivot | rotate
  | rotateAxis | scalePivotTranslate | scalePivot | shear | scale
  | transform | other
deriving DecidableEq

/-- The xform-op types (`UsdGeomXformOp::Type`). -/
inductive OpTypeE
  | tTranslate | tScale
  | tRotateX | tRotateY | tRotateZ
  | tRotateXYZ | tRotateXZY | tRotateYXZ | tRotateYZX | tRotateZXY | tRotateZYX
  | tTransform
deriving DecidableEq

/-- Whether an op type is one of the nine rotation types. -/
def isRotateType : OpTypeE → Bool
  | OpTypeE.tRotateX => true
  | OpTypeE.tRotateY => true
  | OpTypeE.tRotateZ => true
  | OpTypeE.tRotateXYZ => true
  | OpTypeE.tRotateXZY => true
  | OpTypeE.tRotateYXZ => true
  | OpTypeE.tRotateYZX => true
  | OpTypeE.tRotateZXY => true
  | OpTypeE.tRotateZYX => true
  | _ => false

/-- Storage types as classified by `getAttributeType` (`UsdDataType`). -/
inductive StorageTy
  | vec3d | vec3f | vec3h | vec3i
  | sDouble | sFloat | sHalf | sInt
  | matrix4d | otherTy
deriving DecidableEq

/-- Op precisions (`UsdGeomXformOp::Precision`), as used by `AddXformOp`. -/
inductive PrecisionE
  | pDouble | pFloat | pHalf
deriving DecidableEq

/-- The stored value of one xform op: a 3-vector, a scalar, or a matrix. -/
inductive OpValue
  | v3 : Q3 → OpValue
  | sc : Int → OpValue
  | m4 : M4 → OpValue
deriving DecidableEq

/-- A time code: `none` is the default time (`UsdTimeCode::Default`),
`some t` a numeric time. -/
def TimeCode : Type := Option Int
deriving instance DecidableEq for TimeCode

/-- One transform operation of the scene description (`UsdGeomXformOp`
together with the authored value state the engine can observe through it:
name, type, storage, inversion flag, default value, time samples). -/
structure XformOp where
  opName : TokName
  opType : OpTypeE
  storage : StorageTy
  isInverseOp : Bool
  defaultVal : Option OpValue
  samples : List (Int × OpValue)
deriving DecidableEq

/-- Number of authored time samples (`GetNumTimeSamples`). -/
def XformOp.numTimeSamples (op : XformOp) : Nat := op.samples.length

/-- Association-list update used by `XformOp.setValueAt`: replaces the
sample at the given time or appends one. -/
def sampleSet : List (Int × OpValue) → Int → OpValue → List (Int × OpValue)
  | [], t, v => [(t, v)]
  | (t0, v0) :: rest, t, v =>
    if t0 = t then (t, v) :: rest else (t0, v0) :: sampleSet rest t v

/-- The value observable at a time code (`Get` / `GetAs`): the sample at
that exact time, the default value otherwise; `none` when nothing is
authored. -/
def XformOp.valueAt (op : XformOp) (t : TimeCode) : Option OpValue :=
  match t with
  | none => op.defaultVal
  | some τ =>
    match op.samples.lookup τ with
    | some v => some v
    | none => op.defaultVal

/-- Authoring a value at a time code (`Set`). -/
def XformOp.setValueAt (op : XformOp) (t : TimeCode) (v : OpValue) : XformOp :=
  match t with
  | none => { op with defaultVal := some v }
  | some τ => { op with samples := sampleSet op.samples τ v }

/-- Environment of deterministic numeric conversions that the shallow
embedding leaves abstract: narrowing conversions of the non-double
storages and the multiplications by the fixed degree/radian factors
(`value * 180 / 3.141592654` and its inverse).  All claims proved below
depend only on these being functions. -/
structure ConvEnv where
  convVecF : Q3 → Q3
  convVecH : Q3 → Q3
  convVecI : Q3 → Q3
  convF : Int → Int
  convH : Int → Int
  convI : Int → Int
  degToRadF : Int → Int
  radToDegF : Int → Int

/-- The value a 3-vector write stores for a given storage type: exact for
double storage, converted for float / half / int storage, `none` for
storage types that cannot hold a vector. -/
def vecStoreVal (env : ConvEnv) (st : StorageTy) (v : Q3) : Option Q3 :=
  match st with
  | StorageTy.vec3d => some v
  | StorageTy.vec3f => some (env.convVecF v)
  | StorageTy.vec3h => some (env.convVecH v)
  | StorageTy.vec3i => some (env.convVecI v)
  | _ => none

/-- The value a scalar write stores for a given storage type. -/
def scalarStoreVal (env : ConvEnv) (st : StorageTy) (v : Int) : Option Int :=
  match st with
  | StorageTy.sDouble => some v
  | StorageTy.sFloat => some (env.convF v)
  | StorageTy.sHalf => some (env.convH v)
  | StorageTy.sInt => some (env.convI v)
  | _ => none

/-- Result of a codec write: the updated op, the returned status, and
whether a store (`op.Set`) was performed. -/
structure PushOut where
  op : XformOp
  ok : Bool
  wrote : Bool
deriving DecidableEq

/-- `TransformationMatrix::pushVector` (current revision): converts the
vector to the op storage, compares it with the currently stored value at
the write time and skips the store when they are equal; returns false for
non-vector storage. -/
def pushVector (env : ConvEnv) (v : Q3) (op : XformOp) (t : TimeCode) : PushOut :=
  match vecStoreVal env op.storage v with
  | some w =>
    match op.valueAt t with
    | some (OpValue.v3 u) =>
      if u = w then ⟨op, true, false⟩
      else ⟨op.setValueAt t (OpValue.v3 w), true, true⟩
    | _ => ⟨op.setValueAt t (OpValue.v3 w), true, true⟩
  | none => ⟨op, false, false⟩

/-- `TransformationMatrix::pushPoint` (current revision): identical
write-skip-if-equal structure as `pushVector`. -/
def pushPoint (env : ConvEnv) (v : Q3) (op : XformOp) (t : TimeCode) : PushOut :=
  match vecStoreVal env op.storage v with
  | some w =>
    match op.valueAt t with
    | some (OpValue.v3 u) =>
      if u = w then ⟨op, true, false⟩
      else ⟨op.setValueAt t (OpValue.v3 w), true, true⟩
    | _ => ⟨op.setValueAt t (OpValue.v3 w), true, true⟩
  | none => ⟨op, false, false⟩

/-- `TransformationMatrix::pushDouble` (current revision): compares the
converted value against the value stored at the default time (the source
calls `op.Get(&oldValue)` with no time argument) and skips the store when
equal; writes at the given time otherwise.  Returns the op and whether a
store happened (the C++ function returns void). -/
def pushDouble (env : ConvEnv) (v : Int) (op : XformOp) (t : TimeCode) :
    XformOp × Bool :=
  match scalarStoreVal env op.storage v with
  | some w =>
    match op.valueAt none with
    | some (OpValue.sc u) =>
      if u = w then (op, false)
      else (op.setValueAt t (OpValue.sc w), true)
    | _ => (op.setValueAt t (OpValue.sc w), true)
  | none => (op, false)

/-- `TransformationMatrix::pushShear` (current revision): for
double-matrix storage builds the shear matrix, compares and stores when
different, then falls through to `return false`; the function returns
false on every path, including the successful write. -/
def pushShear (v : Q3) (op : XformOp) (t : TimeCode) : PushOut :=
  match op.storage with
  | StorageTy.matrix4d =>
    let m := shearM4 v
    match op.valueAt t with
    | some (OpValue.m4 u) =>
      if u = m then ⟨op, false, false⟩
      else ⟨op.setValueAt t (OpValue.m4 m), false, true⟩
    | _ => ⟨op.setValueAt t (OpValue.m4 m), false, true⟩
  | _ => ⟨op, false, false⟩

/-- `TransformationMatrix::pushMatrix` (current revision). -/
def pushMatrix (m : M4) (op : XformOp) (t : TimeCode) : PushOut :=
  match op.storage with
  | StorageTy.matrix4d =>
    match op.valueAt t with
    | some (OpValue.m4 u) =>
      if u = m then ⟨op, true, false⟩
      else ⟨op.setValueAt t (OpValue.m4 m), true, true⟩
    | _ => ⟨op.setValueAt t (OpValue.m4 m), true, true⟩
  | _ => ⟨op, false, false⟩

/-- `TransformationMatrix::pushRotation` (current revision): dispatches on
the op type; single-axis ops push one scalar in degrees, three-axis ops
push the whole vector in degrees. -/
def pushRotation (env : ConvEnv) (e : Euler) (op : XformOp) (t : TimeCode) :
    PushOut :=
  match op.opType with
  | OpTypeE.tRotateX =>
    let r := pushDouble env (env.radToDegF e.x) op t
    ⟨r.1, true, r.2⟩
  | OpTypeE.tRotateY =>
    let r := pushDouble env (env.radToDegF e.y) op t
    ⟨r.1, true, r.2⟩
  | OpTypeE.tRotateZ =>
    let r := pushDouble env (env.radToDegF e.z) op t
    ⟨r.1, true, r.2⟩
  | OpTypeE.tRotateXYZ =>
    pushVector env ⟨env.radToDegF e.x, env.radToDegF e.y, env.radToDegF e.z⟩ op t
  | OpTypeE.tRotateXZY =>
    pushVector env ⟨env.radToDegF e.x, env.radToDegF e.y, env.radToDegF e.z⟩ op t
  | OpTypeE.tRotateYXZ =>
    pushVector env ⟨env.radToDegF e.x, env.radToDegF e.y, env.radToDegF e.z⟩ op t
  | OpTypeE.tRotateYZX =>
    pushVector env ⟨env.radToDegF e.x, env.radToDegF e.y, env.radToDegF e.z⟩ op t
  | OpTypeE.tRotateZXY =>
    pushVector env ⟨env.radToDegF e.x, env.radToDegF e.y, env.radToDegF e.z⟩ op t
  | OpTypeE.tRotateZYX =>
    pushVector env ⟨env.radToDegF e.x, env.radToDegF e.y, env.radToDegF e.z⟩ op t
  | _ => ⟨op, false, false⟩

/-- `TransformationMatrix::readVector`: succeeds only on vector storage. -/
def readVector (op : XformOp) (t : TimeCode) : Option Q3 :=
  match op.storage with
  | StorageTy.vec3d =>
    match op.valueAt t with
    | some (OpValue.v3 v) => some v
    | _ => none
  | StorageTy.vec3f =>
    match op.valueAt t with
    | some (OpValue.v3 v) => some v
    | _ => none
  | StorageTy.vec3h =>
    match op.valueAt t with
    | some (OpValue.v3 v) => some v
    | _ => none
  | StorageTy.vec3i =>
    match op.valueAt t with
    | some (OpValue.v3 v) => some v
    | _ => none
  | _ => none

/-- `TransformationMatrix::readPoint`: same storage dispatch as
`readVector`. -/
def readPoint (op : XformOp) (t : TimeCode) : Option Q3 := readVector op t

/-- `TransformationMatrix::readShear`: extracts the three shear
coefficients from double-matrix storage. -/
def readShear (op : XformOp) (t : TimeCode) : Option Q3 :=
  match op.storage with
  | StorageTy.matrix4d =>
    match op.valueAt t with
    | some (OpValue.m4 m) => some ⟨m.a10, m.a20, m.a21⟩
    | _ => none
  | _ => none

/-- `TransformationMatrix::readMatrix`. -/
def readMatrix (op : XformOp) (t : TimeCode) : Option M4 :=
  match op.storage with
  | StorageTy.matrix4d =>
    match op.valueAt t with
    | some (OpValue.m4 m) => some m
    | _ => none
  | _ => none

/-- `TransformationMatrix::readDouble`: returns 0 when the read fails
(the C++ initialises `result = 0` and returns it on every path). -/
def readDouble (op : XformOp) (t : TimeCode) : Int :=
  match op.storage with
  | StorageTy.sDouble =>
    match op.valueAt t with
    | some (OpValue.sc u) => u
    | _ => 0
  | StorageTy.sFloat =>
    match op.valueAt t with
    | some (OpValue.sc u) => u
    | _ => 0
  | StorageTy.sHalf =>
    match op.valueAt t with
    | some (OpValue.sc u) => u
    | _ => 0
  | StorageTy.sInt =>
    match op.valueAt t with
    | some (OpValue.sc u) => u
    | _ => 0
  | _ => 0

/-- `TransformationMatrix::readRotation`: single-axis ops fill one
component in radians, three-axis ops read the whole vector and record the
rotation order. -/
def readRotation (env : ConvEnv) (op : XformOp) (t : TimeCode) : Option Euler :=
  match op.opType with
  | OpTypeE.tRotateX => some ⟨env.degToRadF (readDouble op t), 0, 0, RotOrder.xyz⟩
  | OpTypeE.tRotateY => some ⟨0, env.degToRadF (readDouble op t), 0, RotOrder.xyz⟩
  | OpTypeE.tRotateZ => some ⟨0, 0, env.degToRadF (readDouble op t), RotOrder.xyz⟩
  | OpTypeE.tRotateXYZ =>
    (readVector op t).map fun v =>
      ⟨env.degToRadF v.x, env.degToRadF v.y, env.degToRadF v.z, RotOrder.xyz⟩
  | OpTypeE.tRotateXZY =>
    (readVector op t).map fun v =>
      ⟨env.degToRadF v.x, env.degToRadF v.y, env.degToRadF v.z, RotOrder.xzy⟩
  | OpTypeE.tRotateYXZ =>
    (readVector op t).map fun v =>
      ⟨env.degToRadF v.x, env.degToRadF v.y, env.degToRadF v.z, RotOrder.yxz⟩
  | OpTypeE.tRotateYZX =>
    (readVector op t).map fun v =>
      ⟨env.degToRadF v.x, env.degToRadF v.y, env.degToRadF v.z, RotOrder.yzx⟩
  | OpTypeE.tRotateZXY =>
    (readVector op t).map fun v =>
      ⟨env.degToRadF v.x, env.degToRadF v.y, env.degToRadF v.z, RotOrder.zxy⟩
  | OpTypeE.tRotateZYX =>
    (readVector op t).map fun v =>
      ⟨env.degToRadF v.x, env.degToRadF v.y, env.degToRadF v.z, RotOrder.zyx⟩
  | _ => none

end ALUsd

namespace ALUsd

/-- An operation classification: canonical role name, op type, and the
inverted-twin flag (`UsdMayaXformOpClassification`). -/
structure OpClass where
  name : TokName
  opType : OpTypeE
  isInvertedTwin : Bool
deriving DecidableEq

/-- A schema: an ordered template of classifications plus the index pairs
of inversion twins (`UsdMayaXformStack`). -/
structure XformStack where
  ops : List OpClass
  twins : List (Nat × Nat)
deriving DecidableEq

/-- Placeholder classification for out-of-range indexing. -/
def dummyClass : OpClass := ⟨TokName.other, OpTypeE.tTranslate, false⟩

/-- The classification at a schema index. -/
def XformStack.opAt (st : XformStack) (i : Nat) : OpClass :=
  st.ops.getD i dummyClass

/-- Modelled from the spec: the process-wide full Maya-equivalent schema
table (`UsdMayaXformStack::MayaStack`), an immutable constant of the
external usdMaya library — translate, pivot, rotatePivotTranslate,
rotatePivot, rotate, rotateAxis, inverted rotatePivot,
scalePivotTranslate, scalePivot, shear, scale, inverted scalePivot,
inverted pivot, with twin pairs (1,12), (3,6), (8,11). -/
def mayaStack : XformStack :=
  { ops :=
      [ ⟨TokName.translate, OpTypeE.tTranslate, false⟩
      , ⟨TokName.pivot, OpTypeE.tTranslate, false⟩
      , ⟨TokName.rotatePivotTranslate, OpTypeE.tTranslate, false⟩
      , ⟨TokName.rotatePivot, OpTypeE.tTranslate, false⟩
      , ⟨TokName.rotate, OpTypeE.tRotateXYZ, false⟩
      , ⟨TokName.rotateAxis, OpTypeE.tRotateXYZ, false⟩
      , ⟨TokName.rotatePivot, OpTypeE.tTranslate, true⟩
      , ⟨TokName.scalePivotTranslate, OpTypeE.tTranslate, false⟩
      , ⟨TokName.scalePivot, OpTypeE.tTranslate, false⟩
      , ⟨TokName.shear, OpTypeE.tTransform, false⟩
      , ⟨TokName.scale, OpTypeE.tScale, false⟩
      , ⟨TokName.scalePivot, OpTypeE.tTranslate, true⟩
      , ⟨TokName.pivot, OpTypeE.tTranslate, true⟩ ]
  , twins := [(1, 12), (3, 6), (8, 11)] }

/-- `TransformationMatrix::MayaSinglePivotStack` (from the source): the
single-combined-pivot schema — translate, rotatePivotTranslate, pivot,
rotate, rotateAxis, scalePivotTranslate, shear, scale, inverted pivot,
with twin pair (2,8). -/
def singlePivotStack : XformStack :=
  { ops :=
      [ ⟨TokName.translate, OpTypeE.tTranslate, false⟩
      , ⟨TokName.rotatePivotTranslate, OpTypeE.tTranslate, false⟩
      , ⟨TokName.pivot, OpTypeE.tTranslate, false⟩
      , ⟨TokName.rotate, OpTypeE.tRotateXYZ, false⟩
      , ⟨TokName.rotateAxis, OpTypeE.tRotateXYZ, false⟩
      , ⟨TokName.scalePivotTranslate, OpTypeE.tTranslate, false⟩
      , ⟨TokName.shear, OpTypeE.tTransform, false⟩
      , ⟨TokName.scale, OpTypeE.tScale, false⟩
      , ⟨TokName.pivot, OpTypeE.tTranslate, true⟩ ]
  , twins := [(2, 8)] }

/-- Modelled from the spec: the bare-matrix schema
(`UsdMayaXformStack::MatrixStack`) — one opaque transform op. -/
def matrixStack : XformStack :=
  { ops := [⟨TokName.transform, OpTypeE.tTransform, false⟩], twins := [] }

/-- Whether an op type satisfies a classification type: a rotateXYZ
classification accepts every rotation type; otherwise the types must be
equal. -/
def typeCompatible (c : OpTypeE) (o : OpTypeE) : Bool :=
  if c = OpTypeE.tRotateXYZ then isRotateType o else decide (c = o)

/-- Whether one operation matches one schema classification: same name,
same inversion flag, compatible type. -/
def matchesOp (c : OpClass) (op : XformOp) : Bool :=
  decide (c.name = op.opName) && decide (c.isInvertedTwin = op.isInverseOp)
    && typeCompatible c.opType op.opType

/-- First schema entry matching an op, together with the remaining schema
suffix after it. -/
def findFirstMatch : List OpClass → XformOp → Option (OpClass × List OpClass)
  | [], _ => none
  | c :: cs, op =>
    if matchesOp c op then some (c, cs) else findFirstMatch cs op

/-- Order-preserving greedy alignment of the op list onto the schema role
sequence; fails as soon as one op cannot be assigned a role. -/
def greedyMatch : List OpClass → List XformOp → Option (List OpClass)
  | _, [] => some []
  | schema, op :: rest =>
    match findFirstMatch schema op with
    | some (c, schemaRest) => (greedyMatch schemaRest rest).map (c :: ·)
    | none => none

/-- Twin consistency: for every inversion-twin index pair of the schema,
the classification list contains the forward entry exactly when it
contains the inverse entry. -/
def twinsOk (st : XformStack) (ret : List OpClass) : Bool :=
  st.twins.all fun p => decide ((st.opAt p.1 ∈ ret) ↔ (st.opAt p.2 ∈ ret))

/-- Modelled from the spec: `UsdMayaXformStack::MatchingSubstack` of the
external usdMaya library — maps the live operation list role-by-role and
order-preserving onto a subset of the schema; a complete match (every op
assigned, inversion twins both present or both absent) returns the
aligned classification list, anything else returns the empty list. -/
def matchingSubstack (st : XformStack) (ops : List XformOp) : List OpClass :=
  if ops.isEmpty then []
  else
    match greedyMatch st.ops ops with
    | some ret => if twinsOk st ret then ret else []
    | none => []

/-- First schema index whose entry has the given name and inversion flag
(`FindOpIndex`); a large sentinel when absent (`NO_INDEX`). -/
def noIndex : Nat := 1000000000

/-- Index lookup in a schema by name and inversion flag. -/
def findOpIndex (st : XformStack) (nm : TokName) (inverted : Bool) : Nat :=
  match st.ops.findIdx? fun c =>
      decide (c.name = nm) && decide (c.isInvertedTwin = inverted) with
  | some i => i
  | none => noIndex

/-- `FindOpIndexPair`: the forward index of a role plus the index of its
inverted twin when the schema pairs them. -/
def findOpIndexPair (st : XformStack) (nm : TokName) : Nat × Option Nat :=
  let i := findOpIndex st nm false
  (i, (st.twins.find? fun p => p.1 = i).map Prod.snd)

/-- The per-component and global boolean flags of the engine
(`m_flags`), modelled as one field per bit of the source enum; the lock
flags mirror the host lock-state queries. -/
structure Flags where
  inheritsTransform : Bool
  fromMayaSchema : Bool
  singlePivotSchema : Bool
  fromMatrix : Bool
  primHasScale : Bool
  primHasRotation : Bool
  primHasTranslation : Bool
  primHasShear : Bool
  primHasScalePivot : Bool
  primHasScalePivotTranslate : Bool
  primHasRotatePivot : Bool
  primHasRotatePivotTranslate : Bool
  primHasRotateAxes : Bool
  primHasPivot : Bool
  primHasTransform : Bool
  animatedScale : Bool
  animatedRotation : Bool
  animatedTranslation : Bool
  animatedMatrix : Bool
  animatedShear : Bool
  pushToPrimEnabled : Bool
  readAnimatedValues : Bool
  pushPrimToMatrix : Bool
  lockedTranslation : Bool
  lockedRotation : Bool
  lockedScale : Bool
deriving DecidableEq

/-- The all-false flag word. -/
def emptyFlags : Flags :=
  ⟨false, false, false, false, false, false, false, false, false, false,
   false, false, false, false, false, false, false, false, false, false,
   false, false, false, false, false, false⟩

/-- Identifier of a per-component presence flag, as passed to `insertOp`
(`newFlag`) and `removeOp` (`oldFlag`). -/
inductive FlagId
  | fTranslation | fPivot | fRotatePivotTranslate | fRotatePivot
  | fRotation | fRotateAxes | fScalePivotTranslate | fScalePivot
  | fShear | fScale | fTransform
deriving DecidableEq

/-- Reading a presence flag. -/
def Flags.getF (f : Flags) : FlagId → Bool
  | FlagId.fTranslation => f.primHasTranslation
  | FlagId.fPivot => f.primHasPivot
  | FlagId.fRotatePivotTranslate => f.primHasRotatePivotTranslate
  | FlagId.fRotatePivot => f.primHasRotatePivot
  | FlagId.fRotation => f.primHasRotation
  | FlagId.fRotateAxes => f.primHasRotateAxes
  | FlagId.fScalePivotTranslate => f.primHasScalePivotTranslate
  | FlagId.fScalePivot => f.primHasScalePivot
  | FlagId.fShear => f.primHasShear
  | FlagId.fScale => f.primHasScale
  | FlagId.fTransform => f.primHasTransform

/-- Setting a presence flag (`m_flags |= newFlag`). -/
def Flags.setF (f : Flags) : FlagId → Flags
  | FlagId.fTranslation => { f with primHasTranslation := true }
  | FlagId.fPivot => { f with primHasPivot := true }
  | FlagId.fRotatePivotTranslate => { f with primHasRotatePivotTranslate := true }
  | FlagId.fRotatePivot => { f with primHasRotatePivot := true }
  | FlagId.fRotation => { f with primHasRotation := true }
  | FlagId.fRotateAxes => { f with primHasRotateAxes := true }
  | FlagId.fScalePivotTranslate => { f with primHasScalePivotTranslate := true }
  | FlagId.fScalePivot => { f with primHasScalePivot := true }
  | FlagId.fShear => { f with primHasShear := true }
  | FlagId.fScale => { f with primHasScale := true }
  | FlagId.fTransform => { f with primHasTransform := true }

/-- Clearing a presence flag (`m_flags &= ~oldFlag`). -/
def Flags.clearF (f : Flags) : FlagId → Flags
  | FlagId.fTranslation => { f with primHasTranslation := false }
  | FlagId.fPivot => { f with primHasPivot := false }
  | FlagId.fRotatePivotTranslate => { f with primHasRotatePivotTranslate := false }
  | FlagId.fRotatePivot => { f with primHasRotatePivot := false }
  | FlagId.fRotation => { f with primHasRotation := false }
  | FlagId.fRotateAxes => { f with primHasRotateAxes := false }
  | FlagId.fScalePivotTranslate => { f with primHasScalePivotTranslate := false }
  | FlagId.fScalePivot => { f with primHasScalePivot := false }
  | FlagId.fShear => { f with primHasShear := false }
  | FlagId.fScale => { f with primHasScale := false }
  | FlagId.fTransform => { f with primHasTransform := false }

/-- `kAnyKnownSchema`: one of the three schema flags is set. -/
def Flags.anyKnownSchema (f : Flags) : Bool :=
  f.fromMayaSchema || f.singlePivotSchema || f.fromMatrix

/-- `kAnimationMask` (spelled out in the older revision): any of the five
animated-component flags. -/
def Flags.hasAnimation (f : Flags) : Bool :=
  f.animatedScale || f.animatedRotation || f.animatedTranslation
    || f.animatedMatrix || f.animatedShear

/-- The host-side transform component value slots of the
`MPxTransformationMatrix` base class, as seen by the engine. -/
structure HostVals where
  translationValue : Q3
  rotationValue : Euler
  scaleValue : Q3
  shearValue : Q3
  scalePivotValue : Q3
  scalePivotTranslationValue : Q3
  rotatePivotValue : Q3
  rotatePivotTranslationValue : Q3
  rotateOrientationValue : Q4
deriving DecidableEq

/-- Identity host values. -/
def idHost : HostVals :=
  ⟨zero3, zeroE, one3, zero3, zero3, zero3, zero3, zero3, idQ4⟩

/-- Environment of the abstract host-side matrix machinery:
`MPxTransformationMatrix::asMatrix` (composition of the host values into
a 4x4 matrix), matrix decomposition into host values, and the two
quaternion/Euler conversions; deterministic functions left abstract. -/
structure MatEnv where
  composeMat : HostVals → M4
  decomposeMat : M4 → HostVals
  quatToEulerDeg : Q4 → Q3
  eulerDegToQuat : Q3 → Q4

/-- The whole per-entity engine state (`TransformationMatrix`): host value
slots, current time, tweaks, from-source values, flags, and the three
parallel lists (live op list, classification list, Maya-index list). -/
structure TMState where
  host : HostVals
  time : TimeCode
  scaleTweak : Q3
  rotationTweak : Euler
  translationTweak : Q3
  shearTweak : Q3
  scalePivotTweak : Q3
  scalePivotTranslationTweak : Q3
  rotatePivotTweak : Q3
  rotatePivotTranslationTweak : Q3
  rotateOrientationTweak : Q4
  scaleFromUsd : Q3
  rotationFromUsd : Euler
  translationFromUsd : Q3
  shearFromUsd : Q3
  scalePivotFromUsd : Q3
  scalePivotTranslationFromUsd : Q3
  rotatePivotFromUsd : Q3
  rotatePivotTranslationFromUsd : Q3
  rotateOrientationFromUsd : Q4
  localTranslateOffset : Q3
  flags : Flags
  xformops : List XformOp
  orderedOps : List OpClass
  orderedOpMayaIndices : List Nat
deriving DecidableEq

/-- Status results of the engine operations (`MStatus`). -/
inductive MStatus
  | success | failure
deriving DecidableEq

end ALUsd

namespace ALUsd

/-- Oracle for `UsdGeomXformFromableAPI::AddXformOp`: whether the backing
store accepts creation of an op with the given type, precision, name and
inversion flag (it can refuse, e.g. on a duplicate name). -/
def AddOracle : Type := OpTypeE → PrecisionE → TokName → Bool → Bool

/-- Storage type of an op created by `AddXformOp` for a type/precision
pair (`UsdGeomXformOp::GetValueTypeName`). -/
def storageFor (ty : OpTypeE) (p : PrecisionE) : StorageTy :=
  match ty with
  | OpTypeE.tRotateX =>
    match p with
    | PrecisionE.pDouble => StorageTy.sDouble
    | PrecisionE.pFloat => StorageTy.sFloat
    | PrecisionE.pHalf => StorageTy.sHalf
  | OpTypeE.tRotateY =>
    match p with
    | PrecisionE.pDouble => StorageTy.sDouble
    | PrecisionE.pFloat => StorageTy.sFloat
    | PrecisionE.pHalf => StorageTy.sHalf
  | OpTypeE.tRotateZ =>
    match p with
    | PrecisionE.pDouble => StorageTy.sDouble
    | PrecisionE.pFloat => StorageTy.sFloat
    | PrecisionE.pHalf => StorageTy.sHalf
  | OpTypeE.tTransform => StorageTy.matrix4d
  | _ =>
    match p with
    | PrecisionE.pDouble => StorageTy.vec3d
    | PrecisionE.pFloat => StorageTy.vec3f
    | PrecisionE.pHalf => StorageTy.vec3h

/-- A dummy op (only used as an out-of-range list default). -/
def defaultOp : XformOp :=
  ⟨TokName.other, OpTypeE.tTranslate, StorageTy.otherTy, false, none, []⟩

/-- Insertion into a list at an index (`std::vector::insert`). -/
def insAt {α : Type} : Nat → α → List α → List α
  | 0, a, l => a :: l
  | _ + 1, a, [] => [a]
  | n + 1, a, b :: l => b :: insAt n a l

/-- `std::lower_bound` position in a sorted index list: the number of
entries smaller than the key. -/
def lowerBound (l : List Nat) (x : Nat) : Nat :=
  (l.takeWhile fun a => a < x).length

/-- The component whose from-source value and tweak a `pushToPrim` branch
resynchronizes. -/
inductive CompF
  | cTranslation | cRotation | cScale | cShear
  | cScalePivot | cScalePivotTranslation | cRotatePivot | cRotatePivotTranslation
deriving DecidableEq

/-- The components resynchronized by the `pushToPrim` branch for a
classification: each non-inverted branch resets that component's
from-source value to the current host value and its tweak to zero; the
combined pivot branch does both pivots; rotateAxis and transform reset
nothing. -/
def syncsOf (c : OpClass) : List CompF :=
  if c.isInvertedTwin then []
  else
    match c.name with
    | TokName.translate => [CompF.cTranslation]
    | TokName.pivot => [CompF.cRotatePivot, CompF.cScalePivot]
    | TokName.rotatePivotTranslate => [CompF.cRotatePivotTranslation]
    | TokName.rotatePivot => [CompF.cRotatePivot]
    | TokName.rotate => [CompF.cRotation]
    | TokName.rotateAxis => []
    | TokName.scalePivotTranslate => [CompF.cScalePivotTranslation]
    | TokName.scalePivot => [CompF.cScalePivot]
    | TokName.shear => [CompF.cShear]
    | TokName.scale => [CompF.cScale]
    | TokName.transform => []
    | TokName.other => []

/-- Resynchronize one component: from-source value adopts the host value,
the tweak resets to zero. -/
def syncComp (s : TMState) : CompF → TMState
  | CompF.cTranslation =>
    { s with translationFromUsd := s.host.translationValue, translationTweak := zero3 }
  | CompF.cRotation =>
    { s with rotationFromUsd := s.host.rotationValue, rotationTweak := zeroE }
  | CompF.cScale =>
    { s with scaleFromUsd := s.host.scaleValue, scaleTweak := zero3 }
  | CompF.cShear =>
    { s with shearFromUsd := s.host.shearValue, shearTweak := zero3 }
  | CompF.cScalePivot =>
    { s with scalePivotFromUsd := s.host.scalePivotValue, scalePivotTweak := zero3 }
  | CompF.cScalePivotTranslation =>
    { s with scalePivotTranslationFromUsd := s.host.scalePivotTranslationValue,
             scalePivotTranslationTweak := zero3 }
  | CompF.cRotatePivot =>
    { s with rotatePivotFromUsd := s.host.rotatePivotValue, rotatePivotTweak := zero3 }
  | CompF.cRotatePivotTranslation =>
    { s with rotatePivotTranslationFromUsd := s.host.rotatePivotTranslationValue,
             rotatePivotTranslationTweak := zero3 }

/-- Folding the component resynchronizations of a branch list. -/
def syncFold (l : List CompF) (s : TMState) : TMState := l.foldl syncComp s

/-- The scene-description write performed by one `pushToPrim` loop
iteration (current revision): dispatch on the classification name,
writing the matching host value through the codec; inverted twins are
skipped; the opaque-transform branch writes the composed host matrix only
when matrix push is enabled. -/
def writeOp (env : ConvEnv) (menv : MatEnv) (host : HostVals) (rofu : Q4)
    (pptm : Bool) (t : TimeCode) (c : OpClass) (op : XformOp) : XformOp :=
  if c.isInvertedTwin then op
  else
    match c.name with
    | TokName.translate => (pushVector env host.translationValue op t).op
    | TokName.pivot => (pushPoint env host.rotatePivotValue op t).op
    | TokName.rotatePivotTranslate =>
      (pushPoint env host.rotatePivotTranslationValue op t).op
    | TokName.rotatePivot => (pushPoint env host.rotatePivotValue op t).op
    | TokName.rotate => (pushRotation env host.rotationValue op t).op
    | TokName.rotateAxis => (pushVector env (menv.quatToEulerDeg rofu) op t).op
    | TokName.scalePivotTranslate =>
      (pushVector env host.scalePivotTranslationValue op t).op
    | TokName.scalePivot => (pushPoint env host.scalePivotValue op t).op
    | TokName.shear => (pushShear host.shearValue op t).op
    | TokName.scale => (pushVector env host.scaleValue op t).op
    | TokName.transform =>
      if pptm then
        if op.storage = StorageTy.matrix4d then
          op.setValueAt t (OpValue.m4 (menv.composeMat host))
        else op
      else op
    | TokName.other => op

/-- `TransformationMatrix::pushToPrim` (current revision).  The sequential
loop is split into its two independent effects: every live op receives the
codec write of its classification (each write reads only host values,
which the loop never changes), and every visited classification
resynchronizes its component bookkeeping (from-source := host value,
tweak := 0).  Both parts are folded over the classification/op pairs
exactly as the loop visits them. -/
def pushToPrim (env : ConvEnv) (menv : MatEnv) (s : TMState) : TMState :=
  let pairs := s.orderedOps.zip s.xformops
  let newOps :=
    List.zipWith
      (writeOp env menv s.host s.rotateOrientationFromUsd s.flags.pushPrimToMatrix s.time)
      s.orderedOps s.xformops
  let s₁ := syncFold (List.flatten (pairs.map fun p => syncsOf p.1)) s
  { s₁ with xformops := newOps }

/-- Backwards scan of `removeOp` over the reversed zipped lists: removes
up to two entries whose classification has the requested name, stopping
after the second (the source iterates indices from the back and breaks
after the second hit); also reports whether at least one was found. -/
def removeRevAux (nm : TokName) :
    List ((OpClass × XformOp) × Option Nat) → Bool →
    List ((OpClass × XformOp) × Option Nat) × Bool
  | [], found => ([], found)
  | e :: rest, found =>
    if e.1.1.name = nm then
      if found then (rest, true)
      else removeRevAux nm rest true
    else
      let r := removeRevAux nm rest found
      (e :: r.1, r.2)

/-- `TransformationMatrix::removeOp` (current revision): linear backwards
scan removing the (up to two) ops whose classification carries the given
name, erasing the same indices from all three parallel lists (the Maya
index list only when it has been built); the presence flag is cleared
unconditionally; reports failure when no match was found, in which case
the scene op order is not rewritten. -/
def removeOp (s : TMState) (nm : TokName) (fl : FlagId) : MStatus × TMState :=
  let mi : List (Option Nat) :=
    if s.orderedOpMayaIndices.isEmpty then s.orderedOps.map fun _ => none
    else s.orderedOpMayaIndices.map some
  let triples := (s.orderedOps.zip s.xformops).zip mi
  let scan := removeRevAux nm triples.reverse false
  let kept := scan.1.reverse
  let flags₁ := s.flags.clearF fl
  if scan.2 then
    (MStatus.success,
      { s with
        orderedOps := kept.map fun e => e.1.1
        xformops := kept.map fun e => e.1.2
        orderedOpMayaIndices :=
          if s.orderedOpMayaIndices.isEmpty then s.orderedOpMayaIndices
          else kept.filterMap fun e => e.2
        flags := flags₁ })
  else (MStatus.failure, { s with flags := flags₁ })

/-- `TransformationMatrix::buildOrderedOpMayaIndices`: lazily fills the
Maya index list from the matched schema, mapping the single-pivot
schema's combined pivot to the rotatePivot / inverted-scalePivot slots of
the full Maya schema. -/
def buildOrderedOpMayaIndices (s : TMState) : TMState :=
  if s.orderedOpMayaIndices.isEmpty && !s.orderedOps.isEmpty then
    if s.flags.fromMayaSchema then
      { s with orderedOpMayaIndices :=
          s.orderedOps.map fun c => findOpIndex mayaStack c.name c.isInvertedTwin }
    else if s.flags.singlePivotSchema then
      { s with orderedOpMayaIndices :=
          s.orderedOps.map fun c =>
            let nm :=
              if c.name = TokName.pivot then
                if c.isInvertedTwin then TokName.scalePivot else TokName.rotatePivot
              else c.name
            findOpIndex mayaStack nm c.isInvertedTwin }
    else s
  else s

/-- The `addOp` lambda of `insertOp` (current revision): asks the backing
store for a new op and inserts it, with its classification and Maya
index, at the position given by `lower_bound` over the Maya index list
(or position 0 when inserting at the beginning); returns the insert
position. -/
def addOpStep (addOk : AddOracle) (opType : OpTypeE) (prec : PrecisionE)
    (nm : TokName) (atBegin : Bool) (st : TMState) (opIndex : Nat) :
    Option (Nat × TMState) :=
  let opCls := mayaStack.opAt opIndex
  if addOk opType prec nm opCls.isInvertedTwin then
    let newOp : XformOp :=
      ⟨nm, opType, storageFor opType prec, opCls.isInvertedTwin, none, []⟩
    let idx := if atBegin then 0 else lowerBound st.orderedOpMayaIndices opIndex
    some (idx,
      { st with
        orderedOps := insAt idx opCls st.orderedOps
        xformops := insAt idx newOp st.xformops
        orderedOpMayaIndices := insAt idx opIndex st.orderedOpMayaIndices })
  else none

/-- `TransformationMatrix::insertOp` (current revision): builds the Maya
index list if needed, inserts the inverted twin first (so that
insert-at-beginning keeps the forward op in front), then the forward op;
when the second insertion fails, the first is rolled back by erasing its
entry from all three lists; on success the presence flag is set and the
scene op order rewritten. -/
def insertOpRaw (addOk : AddOracle) (s : TMState) (opType : OpTypeE)
    (prec : PrecisionE) (nm : TokName) (newFlag : FlagId) (atBegin : Bool) :
    MStatus × TMState :=
  let s := buildOrderedOpMayaIndices s
  let pair := findOpIndexPair mayaStack nm
  match pair.2 with
  | some secondIdx =>
    match addOpStep addOk opType prec nm atBegin s secondIdx with
    | none => (MStatus.failure, s)
    | some (secondPos, s₁) =>
      match addOpStep addOk opType prec nm atBegin s₁ pair.1 with
      | none =>
        (MStatus.failure,
          { s₁ with
            orderedOps := s₁.orderedOps.eraseIdx secondPos
            xformops := s₁.xformops.eraseIdx secondPos
            orderedOpMayaIndices := s₁.orderedOpMayaIndices.eraseIdx secondPos })
      | some (_, s₂) => (MStatus.success, { s₂ with flags := s₂.flags.setF newFlag })
  | none =>
    match addOpStep addOk opType prec nm atBegin s pair.1 with
    | none => (MStatus.failure, s)
    | some (_, s₂) => (MStatus.success, { s₂ with flags := s₂.flags.setF newFlag })

mutual

/-- `TransformationMatrix::splitPivotIfNeeded`, with a structural fuel for
the bounded mutual recursion with the two pivot insertions (the recursion
terminates in the source because `removeOp` clears the combined-pivot
flag before the recursive calls): no combined pivot means no split and
the caller proceeds; equal pivots mean no split and no insertion; a
diverged pivot removes the combined pivot op and inserts independent
rotatePivot and scalePivot ops, telling the caller not to insert. -/
def splitPivotF (addOk : AddOracle) : Nat → TMState → Bool × TMState
  | 0, s => (true, s)
  | fuel + 1, s =>
    if !s.flags.primHasPivot then (false, s)
    else if s.host.scalePivotValue = s.host.rotatePivotValue then (true, s)
    else
      match removeOp s TokName.pivot FlagId.fPivot with
      | (MStatus.failure, s₁) => (true, s₁)
      | (MStatus.success, s₁) =>
        match insertRotatePivotOpF addOk fuel s₁ with
        | (MStatus.failure, s₂) => (true, s₂)
        | (MStatus.success, s₂) => (true, (insertScalePivotOpF addOk fuel s₂).2)

/-- `TransformationMatrix::insertRotatePivotOp` (fuelled). -/
def insertRotatePivotOpF (addOk : AddOracle) : Nat → TMState → MStatus × TMState
  | 0, s => (MStatus.failure, s)
  | fuel + 1, s =>
    match splitPivotF addOk fuel s with
    | (true, s₁) => (MStatus.success, s₁)
    | (false, s₁) =>
      insertOpRaw addOk s₁ OpTypeE.tTranslate PrecisionE.pFloat
        TokName.rotatePivot FlagId.fRotatePivot false

/-- `TransformationMatrix::insertScalePivotOp` (fuelled). -/
def insertScalePivotOpF (addOk : AddOracle) : Nat → TMState → MStatus × TMState
  | 0, s => (MStatus.failure, s)
  | fuel + 1, s =>
    match splitPivotF addOk fuel s with
    | (true, s₁) => (MStatus.success, s₁)
    | (false, s₁) =>
      insertOpRaw addOk s₁ OpTypeE.tTranslate PrecisionE.pFloat
        TokName.scalePivot FlagId.fScalePivot false

end

/-- Fuel amply covering the recursion depth of the pivot split (the
deepest chain is split, insert, split, early exit). -/
def pivotFuel : Nat := 8

/-- `insertScalePivotOp` at the standard fuel. -/
def insertScalePivotOp (addOk : AddOracle) (s : TMState) : MStatus × TMState :=
  insertScalePivotOpF addOk pivotFuel s

/-- `insertRotatePivotOp` at the standard fuel. -/
def insertRotatePivotOp (addOk : AddOracle) (s : TMState) : MStatus × TMState :=
  insertRotatePivotOpF addOk pivotFuel s

/-- `TransformationMatrix::insertTranslateOp`: translate is always first
in the stack, so it inserts at the beginning. -/
def insertTranslateOp (addOk : AddOracle) (s : TMState) : MStatus × TMState :=
  insertOpRaw addOk s OpTypeE.tTranslate PrecisionE.pFloat
    TokName.translate FlagId.fTranslation true

/-- `TransformationMatrix::insertScaleOp`. -/
def insertScaleOp (addOk : AddOracle) (s : TMState) : MStatus × TMState :=
  insertOpRaw addOk s OpTypeE.tScale PrecisionE.pFloat
    TokName.scale FlagId.fScale false

/-- `TransformationMatrix::insertShearOp`. -/
def insertShearOp (addOk : AddOracle) (s : TMState) : MStatus × TMState :=
  insertOpRaw addOk s OpTypeE.tTransform PrecisionE.pDouble
    TokName.shear FlagId.fShear false

/-- `TransformationMatrix::insertRotateOp`: the op type is chosen from the
host rotation order. -/
def insertRotateOp (addOk : AddOracle) (s : TMState) : MStatus × TMState :=
  let opType :=
    match s.host.rotationValue.ord with
    | RotOrder.xyz => OpTypeE.tRotateXYZ
    | RotOrder.xzy => OpTypeE.tRotateXZY
    | RotOrder.yxz => OpTypeE.tRotateYXZ
    | RotOrder.yzx => OpTypeE.tRotateYZX
    | RotOrder.zxy => OpTypeE.tRotateZXY
    | RotOrder.zyx => OpTypeE.tRotateZYX
  insertOpRaw addOk s opType PrecisionE.pFloat TokName.rotate FlagId.fRotation false

end ALUsd

namespace ALUsd

/-- Modelled from the spec: `pushToPrimAvailable` (declared in the missing
header) — the push-to-source-enabled flag gates every push pass. -/
def pushAvailable (s : TMState) : Bool := s.flags.pushToPrimEnabled

/-- `TransformationMatrix::translateTo` (current revision): success with
no change at all when the host reports translate locked; otherwise the
host slot adopts the value (the base-class `translateTo`, modelled as a
plain slot assignment) and the translation tweak becomes host value minus
from-source value; with push available, a translate op is inserted first
when the prim has none, matrix push is off and the value is not the
identity, and then a push pass runs.  An insertion failure aborts before
the push. -/
def translateTo (env : ConvEnv) (menv : MatEnv) (addOk : AddOracle)
    (s : TMState) (v : Q3) : MStatus × TMState :=
  if s.flags.lockedTranslation then (MStatus.success, s)
  else
    let s₁ := { s with host := { s.host with translationValue := v } }
    let s₂ := { s₁ with translationTweak := s₁.host.translationValue - s₁.translationFromUsd }
    if pushAvailable s₂ then
      if s₂.flags.primHasTranslation then (MStatus.success, pushToPrim env menv s₂)
      else if s₂.flags.pushPrimToMatrix = false ∧ v ≠ zero3 then
        match insertTranslateOp addOk s₂ with
        | (MStatus.failure, s₃) => (MStatus.failure, s₃)
        | (MStatus.success, s₃) => (MStatus.success, pushToPrim env menv s₃)
      else (MStatus.success, pushToPrim env menv s₂)
    else (MStatus.success, s₂)

/-- `TransformationMatrix::scaleTo` (current revision). -/
def scaleTo (env : ConvEnv) (menv : MatEnv) (addOk : AddOracle)
    (s : TMState) (v : Q3) : MStatus × TMState :=
  if s.flags.lockedScale then (MStatus.success, s)
  else
    let s₁ := { s with host := { s.host with scaleValue := v } }
    let s₂ := { s₁ with scaleTweak := s₁.host.scaleValue - s₁.scaleFromUsd }
    if pushAvailable s₂ then
      if s₂.flags.primHasScale then (MStatus.success, pushToPrim env menv s₂)
      else if s₂.flags.pushPrimToMatrix = false ∧ v ≠ one3 then
        match insertScaleOp addOk s₂ with
        | (MStatus.failure, s₃) => (MStatus.failure, s₃)
        | (MStatus.success, s₃) => (MStatus.success, pushToPrim env menv s₃)
      else (MStatus.success, pushToPrim env menv s₂)
    else (MStatus.success, s₂)

/-- `TransformationMatrix::shearTo` (current revision): same shape as
`scaleTo` (no lock query for shear), updating the shear tweak. -/
def shearTo (env : ConvEnv) (menv : MatEnv) (addOk : AddOracle)
    (s : TMState) (v : Q3) : MStatus × TMState :=
  let s₁ := { s with host := { s.host with shearValue := v } }
  let s₂ := { s₁ with shearTweak := s₁.host.shearValue - s₁.shearFromUsd }
  if pushAvailable s₂ then
    if s₂.flags.primHasShear then (MStatus.success, pushToPrim env menv s₂)
    else if s₂.flags.pushPrimToMatrix = false ∧ v ≠ zero3 then
      match insertShearOp addOk s₂ with
      | (MStatus.failure, s₃) => (MStatus.failure, s₃)
      | (MStatus.success, s₃) => (MStatus.success, pushToPrim env menv s₃)
    else (MStatus.success, pushToPrim env menv s₂)
  else (MStatus.success, s₂)

/-- `TransformationMatrix::rotateTo` (current revision, Euler overload):
success with no change when rotate is locked; otherwise the host rotation
slot adopts the value and the three rotation tweak components become host
minus from-source (the tweak's stored order is untouched). -/
def rotateToE (env : ConvEnv) (menv : MatEnv) (addOk : AddOracle)
    (s : TMState) (e : Euler) : MStatus × TMState :=
  if s.flags.lockedRotation then (MStatus.success, s)
  else
    let s₁ := { s with host := { s.host with rotationValue := e } }
    let s₂ :=
      { s₁ with rotationTweak :=
          ⟨s₁.host.rotationValue.x - s₁.rotationFromUsd.x,
           s₁.host.rotationValue.y - s₁.rotationFromUsd.y,
           s₁.host.rotationValue.z - s₁.rotationFromUsd.z,
           s₁.rotationTweak.ord⟩ }
    if pushAvailable s₂ then
      if s₂.flags.primHasRotation then (MStatus.success, pushToPrim env menv s₂)
      else if s₂.flags.pushPrimToMatrix = false ∧ e ≠ zeroE then
        match insertRotateOp addOk s₂ with
        | (MStatus.failure, s₃) => (MStatus.failure, s₃)
        | (MStatus.success, s₃) => (MStatus.success, pushToPrim env menv s₃)
      else (MStatus.success, pushToPrim env menv s₂)
    else (MStatus.success, s₂)

/-- `TransformationMatrix::setScalePivot` (current revision; the
base-class call is modelled at `balance = false`, a plain slot
assignment): updates the scale-pivot tweak, consults the pivot splitter
through `insertScalePivotOp` when the prim has no dedicated scale-pivot
op, then pushes. -/
def setScalePivot (env : ConvEnv) (menv : MatEnv) (addOk : AddOracle)
    (s : TMState) (sp : Q3) : MStatus × TMState :=
  let s₁ := { s with host := { s.host with scalePivotValue := sp } }
  let s₂ := { s₁ with scalePivotTweak := s₁.host.scalePivotValue - s₁.scalePivotFromUsd }
  if pushAvailable s₂ then
    if s₂.flags.primHasScalePivot then (MStatus.success, pushToPrim env menv s₂)
    else if s₂.flags.pushPrimToMatrix = false ∧ sp ≠ zero3 then
      match insertScalePivotOp addOk s₂ with
      | (MStatus.failure, s₃) => (MStatus.failure, s₃)
      | (MStatus.success, s₃) => (MStatus.success, pushToPrim env menv s₃)
    else (MStatus.success, pushToPrim env menv s₂)
  else (MStatus.success, s₂)

/-- `TransformationMatrix::setRotatePivot` (current revision; base-class
call modelled at `balance = false`). -/
def setRotatePivot (env : ConvEnv) (menv : MatEnv) (addOk : AddOracle)
    (s : TMState) (p : Q3) : MStatus × TMState :=
  let s₁ := { s with host := { s.host with rotatePivotValue := p } }
  let s₂ := { s₁ with rotatePivotTweak := s₁.host.rotatePivotValue - s₁.rotatePivotFromUsd }
  if pushAvailable s₂ then
    if s₂.flags.primHasRotatePivot then (MStatus.success, pushToPrim env menv s₂)
    else if s₂.flags.pushPrimToMatrix = false ∧ p ≠ zero3 then
      match insertRotatePivotOp addOk s₂ with
      | (MStatus.failure, s₃) => (MStatus.failure, s₃)
      | (MStatus.success, s₃) => (MStatus.success, pushToPrim env menv s₃)
    else (MStatus.success, pushToPrim env menv s₂)
  else (MStatus.success, s₂)

/-- `TransformationMatrix::setScalePivotTranslation` (current revision). -/
def setScalePivotTranslation (env : ConvEnv) (menv : MatEnv) (addOk : AddOracle)
    (s : TMState) (v : Q3) : MStatus × TMState :=
  let s₁ := { s with host := { s.host with scalePivotTranslationValue := v } }
  let s₂ :=
    { s₁ with scalePivotTranslationTweak :=
        s₁.host.scalePivotTranslationValue - s₁.scalePivotTranslationFromUsd }
  if pushAvailable s₂ then
    if s₂.flags.primHasScalePivotTranslate then (MStatus.success, pushToPrim env menv s₂)
    else if s₂.flags.pushPrimToMatrix = false ∧ v ≠ zero3 then
      match insertOpRaw addOk s₂ OpTypeE.tTranslate PrecisionE.pFloat
          TokName.scalePivotTranslate FlagId.fScalePivotTranslate false with
      | (MStatus.failure, s₃) => (MStatus.failure, s₃)
      | (MStatus.success, s₃) => (MStatus.success, pushToPrim env menv s₃)
    else (MStatus.success, pushToPrim env menv s₂)
  else (MStatus.success, s₂)

/-- `TransformationMatrix::setRotatePivotTranslation` (current revision). -/
def setRotatePivotTranslation (env : ConvEnv) (menv : MatEnv) (addOk : AddOracle)
    (s : TMState) (v : Q3) : MStatus × TMState :=
  let s₁ := { s with host := { s.host with rotatePivotTranslationValue := v } }
  let s₂ :=
    { s₁ with rotatePivotTranslationTweak :=
        s₁.host.rotatePivotTranslationValue - s₁.rotatePivotTranslationFromUsd }
  if pushAvailable s₂ then
    if s₂.flags.primHasRotatePivotTranslate then (MStatus.success, pushToPrim env menv s₂)
    else if s₂.flags.pushPrimToMatrix = false ∧ v ≠ zero3 then
      match insertOpRaw addOk s₂ OpTypeE.tTranslate PrecisionE.pFloat
          TokName.rotatePivotTranslate FlagId.fRotatePivotTranslate false with
      | (MStatus.failure, s₃) => (MStatus.failure, s₃)
      | (MStatus.success, s₃) => (MStatus.success, pushToPrim env menv s₃)
    else (MStatus.success, pushToPrim env menv s₂)
  else (MStatus.success, s₂)

/-- `TransformationMatrix::setRotationOrder`: rejected unconditionally. -/
def setRotationOrder (s : TMState) (_ : RotOrder) : MStatus × TMState :=
  (MStatus.failure, s)

/-- One iteration of the `initialiseToPrim` classification loop (current
revision): skips inverted twins; sets the presence flag of the role; for
translate / rotate / scale / shear / transform also marks the component
animated when the op has more than one time sample; when reading from the
prim, decodes the value into the matching from-source slot (the
transform role decodes the first op of the stack as a matrix, whose
decomposition overwrites the host slots and every from-source value). -/
def initStep (env : ConvEnv) (menv : MatEnv) (readFromPrim : Bool) (t : TimeCode)
    (headOp : XformOp) (s : TMState) (p : OpClass × XformOp) : TMState :=
  let c := p.1
  let op := p.2
  if c.isInvertedTwin then s
  else
    match c.name with
    | TokName.translate =>
      let s₁ := { s with flags := { s.flags with primHasTranslation := true } }
      let s₂ :=
        if op.numTimeSamples > 1 then
          { s₁ with flags := { s₁.flags with animatedTranslation := true } }
        else s₁
      if readFromPrim then
        match readVector op t with
        | some v => { s₂ with translationFromUsd := v }
        | none => s₂
      else s₂
    | TokName.pivot =>
      let s₁ := { s with flags := { s.flags with primHasPivot := true } }
      if readFromPrim then
        match readPoint op t with
        | some v => { s₁ with scalePivotFromUsd := v, rotatePivotFromUsd := v }
        | none => { s₁ with rotatePivotFromUsd := s₁.scalePivotFromUsd }
      else s₁
    | TokName.rotatePivotTranslate =>
      let s₁ := { s with flags := { s.flags with primHasRotatePivotTranslate := true } }
      if readFromPrim then
        match readVector op t with
        | some v => { s₁ with rotatePivotTranslationFromUsd := v }
        | none => s₁
      else s₁
    | TokName.rotatePivot =>
      let s₁ := { s with flags := { s.flags with primHasRotatePivot := true } }
      if readFromPrim then
        match readPoint op t with
        | some v => { s₁ with rotatePivotFromUsd := v }
        | none => s₁
      else s₁
    | TokName.rotate =>
      let s₁ := { s with flags := { s.flags with primHasRotation := true } }
      let s₂ :=
        if op.numTimeSamples > 1 then
          { s₁ with flags := { s₁.flags with animatedRotation := true } }
        else s₁
      if readFromPrim then
        match readRotation env op t with
        | some e => { s₂ with rotationFromUsd := e }
        | none => s₂
      else s₂
    | TokName.rotateAxis =>
      let s₁ := { s with flags := { s.flags with primHasRotateAxes := true } }
      if readFromPrim then
        let vec := (readVector op t).getD zero3
        { s₁ with rotateOrientationFromUsd := menv.eulerDegToQuat vec }
      else s₁
    | TokName.scalePivotTranslate =>
      let s₁ := { s with flags := { s.flags with primHasScalePivotTranslate := true } }
      if readFromPrim then
        match readVector op t with
        | some v => { s₁ with scalePivotTranslationFromUsd := v }
        | none => s₁
      else s₁
    | TokName.scalePivot =>
      let s₁ := { s with flags := { s.flags with primHasScalePivot := true } }
      if readFromPrim then
        match readPoint op t with
        | some v => { s₁ with scalePivotFromUsd := v }
        | none => s₁
      else s₁
    | TokName.shear =>
      let s₁ := { s with flags := { s.flags with primHasShear := true } }
      let s₂ :=
        if op.numTimeSamples > 1 then
          { s₁ with flags := { s₁.flags with animatedShear := true } }
        else s₁
      if readFromPrim then
        match readShear op t with
        | some v => { s₂ with shearFromUsd := v }
        | none => s₂
      else s₂
    | TokName.scale =>
      let s₁ := { s with flags := { s.flags with primHasScale := true } }
      let s₂ :=
        if op.numTimeSamples > 1 then
          { s₁ with flags := { s₁.flags with animatedScale := true } }
        else s₁
      if readFromPrim then
        match readVector op t with
        | some v => { s₂ with scaleFromUsd := v }
        | none => s₂
      else s₂
    | TokName.transform =>
      let s₁ :=
        { s with flags :=
            { s.flags with primHasTransform := true, fromMatrix := true,
                           pushPrimToMatrix := true } }
      let s₂ :=
        if op.numTimeSamples > 1 then
          { s₁ with flags := { s₁.flags with animatedMatrix := true } }
        else s₁
      if readFromPrim then
        let m := (readMatrix headOp t).getD idM4
        let d := menv.decomposeMat m
        { s₂ with
          host := d
          scaleFromUsd := d.scaleValue
          rotationFromUsd := d.rotationValue
          translationFromUsd := d.translationValue
          shearFromUsd := d.shearValue
          scalePivotFromUsd := d.scalePivotValue
          scalePivotTranslationFromUsd := d.scalePivotTranslationValue
          rotatePivotFromUsd := d.rotatePivotValue
          rotatePivotTranslationFromUsd := d.rotatePivotTranslationValue
          rotateOrientationFromUsd := d.rotateOrientationValue }
      else s₂
    | TokName.other => s

/-- The schema selection of `initialiseToPrim` (current revision): an
empty op list trivially counts as matching the Maya schema; otherwise the
three schema tables are tried in fixed priority order (full Maya stack,
single-pivot stack, matrix stack) and the first complete match supplies
both the schema flag and the classification list. -/
def selSchema (fl1 : Flags) (ops : List XformOp) : Flags × List OpClass :=
  if ops.isEmpty then ({ fl1 with fromMayaSchema := true }, [])
  else
    match matchingSubstack mayaStack ops with
    | c :: cs => ({ fl1 with fromMayaSchema := true }, c :: cs)
    | [] =>
      match matchingSubstack singlePivotStack ops with
      | c :: cs => ({ fl1 with singlePivotSchema := true }, c :: cs)
      | [] =>
        match matchingSubstack matrixStack ops with
        | c :: cs => ({ fl1 with fromMatrix := true }, c :: cs)
        | [] => (fl1, [])

/-- The classification loop of `initialiseToPrim` (current revision):
runs only when a known schema matched, folding the per-op classification
step over the classification/op pairs. -/
def initLoop (env : ConvEnv) (menv : MatEnv) (readFromPrim : Bool)
    (ops : List XformOp) (s₁ : TMState) : TMState :=
  if s₁.flags.anyKnownSchema then
    (s₁.orderedOps.zip ops).foldl
      (initStep env menv readFromPrim s₁.time (ops.headD defaultOp)) s₁
  else s₁

/-- The animation lock at the end of `initialiseToPrim` (current
revision): any animated component forces push-to-prim off and
read-animated-values on. -/
def animLock (s₂ : TMState) : TMState :=
  if s₂.flags.hasAnimation then
    { s₂ with flags :=
        { s₂.flags with pushToPrimEnabled := false, readAnimatedValues := true } }
  else s₂

/-- `TransformationMatrix::initialiseToPrim` (current revision): adopts
the ordered op list; records transform inheritance; schema selection in
fixed priority order (`selSchema`), the classification loop decoding
values and marking animation (`initLoop`), then the animation lock
(`animLock`). -/
def initialiseToPrim (env : ConvEnv) (menv : MatEnv) (readFromPrim : Bool)
    (ops : List XformOp) (resetsXformStack : Bool) (s : TMState) : TMState :=
  let fl1 :=
    if !resetsXformStack then { s.flags with inheritsTransform := true } else s.flags
  let sel := selSchema fl1 ops
  let s₁ :=
    { s with flags := sel.1, xformops := ops, orderedOps := sel.2,
             orderedOpMayaIndices := [] }
  animLock (initLoop env menv readFromPrim ops s₁)

/-- One iteration of the `updateToTime` refresh loop (current revision):
re-decodes each still-animated component at the new time and recomputes
the host value as fresh source value plus stored tweak; the animated
opaque-matrix case decomposes the fresh matrix and reapplies the
rotation, translation, scale and shear tweaks (the rotation order of the
host slot is kept). -/
def updStep (env : ConvEnv) (menv : MatEnv) (t : TimeCode) (s : TMState)
    (p : OpClass × XformOp) : TMState :=
  let op := p.2
  match p.1.name with
  | TokName.translate =>
    if s.flags.animatedTranslation then
      let s₁ :=
        match readVector op t with
        | some v => { s with translationFromUsd := v }
        | none => s
      { s₁ with host :=
          { s₁.host with translationValue := s₁.translationFromUsd + s₁.translationTweak } }
    else s
  | TokName.rotate =>
    if s.flags.animatedRotation then
      let s₁ :=
        match readRotation env op t with
        | some e => { s with rotationFromUsd := e }
        | none => s
      { s₁ with host :=
          { s₁.host with rotationValue := addE s₁.rotationFromUsd s₁.rotationTweak } }
    else s
  | TokName.scale =>
    if s.flags.animatedScale then
      let s₁ :=
        match readVector op t with
        | some v => { s with scaleFromUsd := v }
        | none => s
      { s₁ with host := { s₁.host with scaleValue := s₁.scaleFromUsd + s₁.scaleTweak } }
    else s
  | TokName.shear =>
    if s.flags.animatedShear then
      let s₁ :=
        match readShear op t with
        | some v => { s with shearFromUsd := v }
        | none => s
      { s₁ with host := { s₁.host with shearValue := s₁.shearFromUsd + s₁.shearTweak } }
    else s
  | TokName.transform =>
    if s.flags.animatedMatrix then
      let m := (readMatrix op t).getD idM4
      let d := menv.decomposeMat m
      { s with
        rotationFromUsd := d.rotationValue
        translationFromUsd := d.translationValue
        scaleFromUsd := d.scaleValue
        shearFromUsd := d.shearValue
        host :=
          { s.host with
            rotationValue :=
              ⟨d.rotationValue.x + s.rotationTweak.x,
               d.rotationValue.y + s.rotationTweak.y,
               d.rotationValue.z + s.rotationTweak.z,
               s.host.rotationValue.ord⟩
            translationValue := d.translationValue + s.translationTweak
            scaleValue := d.scaleValue + s.scaleTweak
            shearValue := d.shearValue + s.shearTweak } }
    else s
  | _ => s

/-- `TransformationMatrix::updateToTime` (current revision): a no-op when
the time is unchanged; otherwise adopts the new time and, when any
component is animated, refreshes the animated components from the op
list, reapplying the stored tweaks. -/
def updateToTime (env : ConvEnv) (menv : MatEnv) (s : TMState) (t : TimeCode) : TMState :=
  if s.time = t then s
  else
    let s₁ := { s with time := t }
    if s₁.flags.hasAnimation then
      (s₁.orderedOps.zip s₁.xformops).foldl (updStep env menv t) s₁
    else s₁

/-- `TransformationMatrix::setPrimInternal` followed by the host-slot
mirroring (current revision): flags reduced to the externally preserved
ones, tweaks zeroed, from-source values reset to identity, full
initialisation from the prim's op list, then every base-class host slot
adopts its from-source value. -/
def bindToPrim (env : ConvEnv) (menv : MatEnv) (preserved : Flags)
    (ops : List XformOp) (resetsXformStack : Bool) (t : TimeCode) : TMState :=
  let s0 : TMState :=
    { host := idHost
      time := t
      scaleTweak := zero3
      rotationTweak := zeroE
      translationTweak := zero3
      shearTweak := zero3
      scalePivotTweak := zero3
      scalePivotTranslationTweak := zero3
      rotatePivotTweak := zero3
      rotatePivotTranslationTweak := zero3
      rotateOrientationTweak := idQ4
      scaleFromUsd := one3
      rotationFromUsd := zeroE
      translationFromUsd := zero3
      shearFromUsd := zero3
      scalePivotFromUsd := zero3
      scalePivotTranslationFromUsd := zero3
      rotatePivotFromUsd := zero3
      rotatePivotTranslationFromUsd := zero3
      rotateOrientationFromUsd := idQ4
      localTranslateOffset := zero3
      flags := preserved
      xformops := []
      orderedOps := []
      orderedOpMayaIndices := [] }
  let s₁ := initialiseToPrim env menv true ops resetsXformStack s0
  { s₁ with host :=
      { translationValue := s₁.translationFromUsd
        rotationValue := s₁.rotationFromUsd
        scaleValue := s₁.scaleFromUsd
        shearValue := s₁.shearFromUsd
        scalePivotValue := s₁.scalePivotFromUsd
        scalePivotTranslationValue := s₁.scalePivotTranslationFromUsd
        rotatePivotValue := s₁.rotatePivotFromUsd
        rotatePivotTranslationValue := s₁.rotatePivotTranslationFromUsd
        rotateOrientationValue := s₁.rotateOrientationFromUsd } }

end ALUsd

namespace ALUsd

/-- `TransformationMatrix::pushVector` of the older revision: converts and
stores unconditionally (no comparison with the stored value). -/
def pushVectorOld (env : ConvEnv) (v : Q3) (op : XformOp) (t : TimeCode) : PushOut :=
  match vecStoreVal env op.storage v with
  | some w => ⟨op.setValueAt t (OpValue.v3 w), true, true⟩
  | none => ⟨op, false, false⟩

/-- `TransformationMatrix::pushPoint` of the older revision. -/
def pushPointOld (env : ConvEnv) (v : Q3) (op : XformOp) (t : TimeCode) : PushOut :=
  match vecStoreVal env op.storage v with
  | some w => ⟨op.setValueAt t (OpValue.v3 w), true, true⟩
  | none => ⟨op, false, false⟩

/-- `TransformationMatrix::pushDouble` of the older revision. -/
def pushDoubleOld (env : ConvEnv) (v : Int) (op : XformOp) (t : TimeCode) :
    XformOp × Bool :=
  match scalarStoreVal env op.storage v with
  | some w => (op.setValueAt t (OpValue.sc w), true)
  | none => (op, false)

/-- `TransformationMatrix::pushShear` of the older revision: stores
unconditionally and also returns false on the success path. -/
def pushShearOld (v : Q3) (op : XformOp) (t : TimeCode) : PushOut :=
  match op.storage with
  | StorageTy.matrix4d => ⟨op.setValueAt t (OpValue.m4 (shearM4 v)), false, true⟩
  | _ => ⟨op, false, false⟩

/-- `TransformationMatrix::pushMatrix` of the older revision. -/
def pushMatrixOld (m : M4) (op : XformOp) (t : TimeCode) : PushOut :=
  match op.storage with
  | StorageTy.matrix4d => ⟨op.setValueAt t (OpValue.m4 m), true, true⟩
  | _ => ⟨op, false, false⟩

/-- `TransformationMatrix::pushRotation` of the older revision. -/
def pushRotationOld (env : ConvEnv) (e : Euler) (op : XformOp) (t : TimeCode) :
    PushOut :=
  match op.opType with
  | OpTypeE.tRotateX =>
    let r := pushDoubleOld env (env.radToDegF e.x) op t
    ⟨r.1, true, r.2⟩
  | OpTypeE.tRotateY =>
    let r := pushDoubleOld env (env.radToDegF e.y) op t
    ⟨r.1, true, r.2⟩
  | OpTypeE.tRotateZ =>
    let r := pushDoubleOld env (env.radToDegF e.z) op t
    ⟨r.1, true, r.2⟩
  | OpTypeE.tRotateXYZ =>
    pushVectorOld env ⟨env.radToDegF e.x, env.radToDegF e.y, env.radToDegF e.z⟩ op t
  | OpTypeE.tRotateXZY =>
    pushVectorOld env ⟨env.radToDegF e.x, env.radToDegF e.y, env.radToDegF e.z⟩ op t
  | OpTypeE.tRotateYXZ =>
    pushVectorOld env ⟨env.radToDegF e.x, env.radToDegF e.y, env.radToDegF e.z⟩ op t
  | OpTypeE.tRotateYZX =>
    pushVectorOld env ⟨env.radToDegF e.x, env.radToDegF e.y, env.radToDegF e.z⟩ op t
  | OpTypeE.tRotateZXY =>
    pushVectorOld env ⟨env.radToDegF e.x, env.radToDegF e.y, env.radToDegF e.z⟩ op t
  | OpTypeE.tRotateZYX =>
    pushVectorOld env ⟨env.radToDegF e.x, env.radToDegF e.y, env.radToDegF e.z⟩ op t
  | _ => ⟨op, false, false⟩

/-- The per-op write of the older revision's `pushToPrim` loop. -/
def writeOpOld (env : ConvEnv) (menv : MatEnv) (host : HostVals) (rofu : Q4)
    (pptm : Bool) (t : TimeCode) (c : OpClass) (op : XformOp) : XformOp :=
  if c.isInvertedTwin then op
  else
    match c.name with
    | TokName.translate => (pushVectorOld env host.translationValue op t).op
    | TokName.pivot => (pushPointOld env host.rotatePivotValue op t).op
    | TokName.rotatePivotTranslate =>
      (pushPointOld env host.rotatePivotTranslationValue op t).op
    | TokName.rotatePivot => (pushPointOld env host.rotatePivotValue op t).op
    | TokName.rotate => (pushRotationOld env host.rotationValue op t).op
    | TokName.rotateAxis => (pushVectorOld env (menv.quatToEulerDeg rofu) op t).op
    | TokName.scalePivotTranslate =>
      (pushVectorOld env host.scalePivotTranslationValue op t).op
    | TokName.scalePivot => (pushPointOld env host.scalePivotValue op t).op
    | TokName.shear => (pushShearOld host.shearValue op t).op
    | TokName.scale => (pushVectorOld env host.scaleValue op t).op
    | TokName.transform =>
      if pptm then
        if op.storage = StorageTy.matrix4d then
          op.setValueAt t (OpValue.m4 (menv.composeMat host))
        else op
      else op
    | TokName.other => op

/-- `TransformationMatrix::pushToPrim` of the older revision: same loop
structure and bookkeeping as the current one, but through the old
unconditional codec writes. -/
def pushToPrimOld (env : ConvEnv) (menv : MatEnv) (s : TMState) : TMState :=
  let pairs := s.orderedOps.zip s.xformops
  let newOps :=
    List.zipWith
      (writeOpOld env menv s.host s.rotateOrientationFromUsd s.flags.pushPrimToMatrix s.time)
      s.orderedOps s.xformops
  let s₁ := syncFold (List.flatten (pairs.map fun p => syncsOf p.1)) s
  { s₁ with xformops := newOps }

/-- The `findOpInsertPos` lambda of the older revision's `insertOp`: the
first live classification equal to any full-Maya-schema entry at or after
the given index. -/
def findOpInsertPosOld (orderedOps : List OpClass) (opIndex : Nat) : Nat :=
  let tail := mayaStack.ops.drop opIndex
  match orderedOps.findIdx? fun c => tail.contains c with
  | some i => i
  | none => orderedOps.length

/-- The `addOp` lambda of the older revision's `insertOp`: inserts the new
op and its classification into both parallel lists at the found
position. -/
def addOpStepOld (addOk : AddOracle) (opType : OpTypeE) (prec : PrecisionE)
    (nm : TokName) (atBegin : Bool) (ord : List OpClass) (xf : List XformOp)
    (opIndex : Nat) : Option (Nat × List OpClass × List XformOp) :=
  let opCls := mayaStack.opAt opIndex
  if addOk opType prec nm opCls.isInvertedTwin then
    let newOp : XformOp :=
      ⟨nm, opType, storageFor opType prec, opCls.isInvertedTwin, none, []⟩
    let idx := if atBegin then 0 else findOpInsertPosOld ord opIndex
    some (idx, insAt idx opCls ord, insAt idx newOp xf)
  else none

/-- `TransformationMatrix::insertOp` of the older revision: inserts the
inverted twin first, then the forward op; when the forward insertion
fails, the rollback erases the partially inserted twin from the
classification list only, leaving the op in the live op list. -/
def insertOpOld (addOk : AddOracle) (s : TMState) (opType : OpTypeE)
    (prec : PrecisionE) (nm : TokName) (newFlag : FlagId) (atBegin : Bool) :
    MStatus × TMState :=
  let pair := findOpIndexPair mayaStack nm
  match pair.2 with
  | some secondIdx =>
    match addOpStepOld addOk opType prec nm atBegin s.orderedOps s.xformops secondIdx with
    | none => (MStatus.failure, s)
    | some (secondPos, ord₁, xf₁) =>
      match addOpStepOld addOk opType prec nm atBegin ord₁ xf₁ pair.1 with
      | none =>
        (MStatus.failure,
          { s with orderedOps := ord₁.eraseIdx secondPos, xformops := xf₁ })
      | some (_, ord₂, xf₂) =>
        (MStatus.success,
          { s with orderedOps := ord₂, xformops := xf₂, flags := s.flags.setF newFlag })
  | none =>
    match addOpStepOld addOk opType prec nm atBegin s.orderedOps s.xformops pair.1 with
    | none => (MStatus.failure, s)
    | some (_, ord₂, xf₂) =>
      (MStatus.success,
        { s with orderedOps := ord₂, xformops := xf₂, flags := s.flags.setF newFlag })

/-- `TransformationMatrix::shearTo` of the older revision: the host shear
slot adopts the value, but the delta `shearValue - m_shearFromUsd` is
stored into `m_scaleTweak` (the scale tweak), leaving `m_shearTweak`
untouched; then the usual insert-and-push path. -/
def shearToOld (env : ConvEnv) (menv : MatEnv) (addOk : AddOracle)
    (s : TMState) (v : Q3) : MStatus × TMState :=
  let s₁ := { s with host := { s.host with shearValue := v } }
  let s₂ := { s₁ with scaleTweak := s₁.host.shearValue - s₁.shearFromUsd }
  if s₂.flags.pushToPrimEnabled then
    if s₂.flags.primHasShear then (MStatus.success, pushToPrimOld env menv s₂)
    else if s₂.flags.pushPrimToMatrix = false then
      match insertOpOld addOk s₂ OpTypeE.tTransform PrecisionE.pDouble
          TokName.shear FlagId.fShear false with
      | (MStatus.failure, s₃) => (MStatus.failure, s₃)
      | (MStatus.success, s₃) => (MStatus.success, pushToPrimOld env menv s₃)
    else (MStatus.success, pushToPrimOld env menv s₂)
  else (MStatus.success, s₂)

end ALUsd

namespace ALUsd

/-- Conversion environment in which every narrowing conversion is exact
(used for concrete evaluations whose values all storages represent
exactly). -/
def idConv : ConvEnv := ⟨id, id, id, id, id, id, id, id⟩

/-- A concrete matrix environment for evaluations that never reach the
matrix machinery. -/
def idMat : MatEnv := ⟨fun _ => idM4, fun _ => idHost, fun _ => zero3, fun _ => idQ4⟩

/-- Backing store oracle that accepts every op creation. -/
def allOk : AddOracle := fun _ _ _ _ => true

/-- A fresh bound entity with an empty operation stack and push disabled. -/
def emptyBound : TMState := bindToPrim idConv idMat emptyFlags [] false none


/-- The explicit value of a freshly constructed engine state before
binding (all tweaks zero, identity from-source values). -/
def zeroState : TMState :=
  { host := idHost, time := none, scaleTweak := zero3, rotationTweak := zeroE,
    translationTweak := zero3, shearTweak := zero3, scalePivotTweak := zero3,
    scalePivotTranslationTweak := zero3, rotatePivotTweak := zero3,
    rotatePivotTranslationTweak := zero3, rotateOrientationTweak := idQ4,
    scaleFromUsd := one3, rotationFromUsd := zeroE, translationFromUsd := zero3,
    shearFromUsd := zero3, scalePivotFromUsd := zero3,
    scalePivotTranslationFromUsd := zero3, rotatePivotFromUsd := zero3,
    rotatePivotTranslationFromUsd := zero3, rotateOrientationFromUsd := idQ4,
    localTranslateOffset := zero3, flags := emptyFlags, xformops := [],
    orderedOps := [], orderedOpMayaIndices := [] }

/-- Claim C9: `pushShear` on an op with 4x4 double-matrix storage holding
the identity, written with shear coefficients (1,2,3): the shear matrix
differs from the stored identity, the store is performed, and yet the
function returns `false` — the failure sentinel is returned on the
success path, contradicting the claim that `false` signals only a
storage/kind mismatch. -/
theorem claim9_pushShear_success_path_returns_false :
    pushShear ⟨1, 2, 3⟩
        ⟨TokName.shear, OpTypeE.tTransform, StorageTy.matrix4d, false,
          some (OpValue.m4 idM4), []⟩ none =
      ⟨⟨TokName.shear, OpTypeE.tTransform, StorageTy.matrix4d, false,
          some (OpValue.m4 (shearM4 ⟨1, 2, 3⟩)), []⟩, false, true⟩
    ∧ shearM4 ⟨1, 2, 3⟩ ≠ idM4 := by decide

/-- Claim C1: evaluating the older revision's `shearTo` at a freshly
bound entity (push disabled) with shear value (1,2,3): the call reports
success and updates the host shear slot, but stores the delta into the
scale tweak and leaves the shear tweak at zero, so host shear no longer
equals from-source shear plus shear tweak, and the scale component's
invariant breaks as well. -/
theorem claim1_old_shearTo_updates_wrong_tweak :
    (shearToOld idConv idMat allOk emptyBound ⟨1, 2, 3⟩).1 = MStatus.success
    ∧ (shearToOld idConv idMat allOk emptyBound ⟨1, 2, 3⟩).2.host.shearValue = ⟨1, 2, 3⟩
    ∧ (shearToOld idConv idMat allOk emptyBound ⟨1, 2, 3⟩).2.shearTweak = zero3
    ∧ (shearToOld idConv idMat allOk emptyBound ⟨1, 2, 3⟩).2.scaleTweak = ⟨1, 2, 3⟩
    ∧ (shearToOld idConv idMat allOk emptyBound ⟨1, 2, 3⟩).2.host.shearValue ≠
        (shearToOld idConv idMat allOk emptyBound ⟨1, 2, 3⟩).2.shearFromUsd
          + (shearToOld idConv idMat allOk emptyBound ⟨1, 2, 3⟩).2.shearTweak
    ∧ (shearToOld idConv idMat allOk emptyBound ⟨1, 2, 3⟩).2.host.scaleValue ≠
        (shearToOld idConv idMat allOk emptyBound ⟨1, 2, 3⟩).2.scaleFromUsd
          + (shearToOld idConv idMat allOk emptyBound ⟨1, 2, 3⟩).2.scaleTweak := by
  decide

/-- Backing store oracle that accepts only inverted-twin creations, so
the second insertion of a pair fails. -/
def invOnlyOracle : AddOracle := fun _ _ _ inverted => inverted

/-- Claim C6: the older revision's `insertOp` for the paired rotatePivot
role on an empty stack, against a backing store that accepts the inverted
twin but rejects the forward op: the rollback erases the partially
inserted entry from the classification list only, leaving the live op
list with a dangling inverse — the two parallel lists end up with
different lengths. -/
theorem claim6_old_insertOp_rollback_desyncs_lists :
    (insertOpOld invOnlyOracle emptyBound OpTypeE.tTranslate PrecisionE.pFloat
        TokName.rotatePivot FlagId.fRotatePivot false).1 = MStatus.failure
    ∧ (insertOpOld invOnlyOracle emptyBound OpTypeE.tTranslate PrecisionE.pFloat
        TokName.rotatePivot FlagId.fRotatePivot false).2.orderedOps = []
    ∧ (insertOpOld invOnlyOracle emptyBound OpTypeE.tTranslate PrecisionE.pFloat
        TokName.rotatePivot FlagId.fRotatePivot false).2.xformops.map XformOp.opName
        = [TokName.rotatePivot]
    ∧ (insertOpOld invOnlyOracle emptyBound OpTypeE.tTranslate PrecisionE.pFloat
        TokName.rotatePivot FlagId.fRotatePivot false).2.orderedOps.length ≠
      (insertOpOld invOnlyOracle emptyBound OpTypeE.tTranslate PrecisionE.pFloat
        TokName.rotatePivot FlagId.fRotatePivot false).2.xformops.length := by
  decide

/-- A translate op with double-vector storage already holding (1,2,3). -/
def storedTranslateOp : XformOp :=
  ⟨TokName.translate, OpTypeE.tTranslate, StorageTy.vec3d, false,
    some (OpValue.v3 ⟨1, 2, 3⟩), []⟩

/-- Claim C3, counterexample: the older revision's `pushVector`, asked to
write (1,2,3) into an op that already stores exactly (1,2,3), performs
the store anyway — it does not compare against the currently stored value
— while the current revision's `pushVector` skips it. -/
theorem claim3_counterexample_old_pushVector_never_skips :
    storedTranslateOp.valueAt none = some (OpValue.v3 ⟨1, 2, 3⟩)
    ∧ (pushVectorOld idConv ⟨1, 2, 3⟩ storedTranslateOp none).wrote = true
    ∧ (pushVector idConv ⟨1, 2, 3⟩ storedTranslateOp none).wrote = false := by
  decide

/-- The combined pivot op of the C2 scenario, valued (1,2,3). -/
def pivotOpFwd : XformOp :=
  ⟨TokName.pivot, OpTypeE.tTranslate, StorageTy.vec3d, false,
    some (OpValue.v3 ⟨1, 2, 3⟩), []⟩

/-- The inverted twin of the combined pivot op. -/
def pivotOpInv : XformOp :=
  ⟨TokName.pivot, OpTypeE.tTranslate, StorageTy.vec3d, true, none, []⟩

/-- The flag word of the entity bound to the combined-pivot stack, with
push enabled. -/
def pivotFlags : Flags :=
  { emptyFlags with inheritsTransform := true, fromMayaSchema := true,
                    primHasPivot := true, pushToPrimEnabled := true }

/-- The explicit value of the combined-pivot bound state. -/
def pivotLit : TMState :=
  { zeroState with
    host := { idHost with scalePivotValue := ⟨1, 2, 3⟩, rotatePivotValue := ⟨1, 2, 3⟩ }
    scalePivotFromUsd := ⟨1, 2, 3⟩
    rotatePivotFromUsd := ⟨1, 2, 3⟩
    flags := pivotFlags
    xformops := [pivotOpFwd, pivotOpInv]
    orderedOps := [⟨TokName.pivot, OpTypeE.tTranslate, false⟩,
                   ⟨TokName.pivot, OpTypeE.tTranslate, true⟩] }

/-- An entity bound to a stack holding one combined pivot (1,2,3) with
its inverted twin, with push-to-prim then enabled. -/
def pivotBound : TMState :=
  let s := bindToPrim idConv idMat emptyFlags [pivotOpFwd, pivotOpInv] false none
  { s with flags := { s.flags with pushToPrimEnabled := true } }

/-- Binding to the combined-pivot stack indeed yields the explicit state
used as the root of the C2 evaluation. -/
theorem pivotBound_eq : pivotBound = pivotLit := by decide

/-- The state inside `setScalePivot` after the host slot and the
scale-pivot tweak updates. -/
def c2s1 : TMState :=
  { pivotLit with
    host := { pivotLit.host with scalePivotValue := ⟨4, 5, 6⟩ }
    scalePivotTweak := ⟨3, 3, 3⟩ }

/-- The state after `removeOp` has removed the combined pivot pair. -/
def c2s2 : TMState :=
  { c2s1 with
    xformops := []
    orderedOps := []
    flags := { pivotFlags with primHasPivot := false } }

/-- C2 step: removing the combined pivot erases both entries from both
parallel lists and clears the pivot presence flag. -/
theorem c2step_remove :
    removeOp c2s1 TokName.pivot FlagId.fPivot = (MStatus.success, c2s2) := by decide

/-- Classification of the inserted forward rotatePivot op. -/
def rpFwdCls : OpClass := ⟨TokName.rotatePivot, OpTypeE.tTranslate, false⟩

/-- Classification of the inserted inverted rotatePivot op. -/
def rpInvCls : OpClass := ⟨TokName.rotatePivot, OpTypeE.tTranslate, true⟩

/-- Classification of the inserted forward scalePivot op. -/
def spFwdCls : OpClass := ⟨TokName.scalePivot, OpTypeE.tTranslate, false⟩

/-- Classification of the inserted inverted scalePivot op. -/
def spInvCls : OpClass := ⟨TokName.scalePivot, OpTypeE.tTranslate, true⟩

/-- The freshly created forward rotatePivot op. -/
def rpFwdOp : XformOp :=
  ⟨TokName.rotatePivot, OpTypeE.tTranslate, StorageTy.vec3f, false, none, []⟩

/-- The freshly created inverted rotatePivot op. -/
def rpInvOp : XformOp :=
  ⟨TokName.rotatePivot, OpTypeE.tTranslate, StorageTy.vec3f, true, none, []⟩

/-- The freshly created forward scalePivot op. -/
def spFwdOp : XformOp :=
  ⟨TokName.scalePivot, OpTypeE.tTranslate, StorageTy.vec3f, false, none, []⟩

/-- The freshly created inverted scalePivot op. -/
def spInvOp : XformOp :=
  ⟨TokName.scalePivot, OpTypeE.tTranslate, StorageTy.vec3f, true, none, []⟩

/-- The state after the rotatePivot pair has been inserted. -/
def c2s3 : TMState :=
  { c2s2 with
    xformops := [rpFwdOp, rpInvOp]
    orderedOps := [rpFwdCls, rpInvCls]
    orderedOpMayaIndices := [3, 6]
    flags := { c2s2.flags with primHasRotatePivot := true } }

/-- C2 step: inserting the rotatePivot pair places the forward op before
its inverse and aligns all three lists. -/
theorem c2step_insert_rp :
    insertOpRaw allOk c2s2 OpTypeE.tTranslate PrecisionE.pFloat
      TokName.rotatePivot FlagId.fRotatePivot false = (MStatus.success, c2s3) := by
  decide

/-- The state after the scalePivot pair has also been inserted. -/
def c2s4 : TMState :=
  { c2s3 with
    xformops := [rpFwdOp, rpInvOp, spFwdOp, spInvOp]
    orderedOps := [rpFwdCls, rpInvCls, spFwdCls, spInvCls]
    orderedOpMayaIndices := [3, 6, 8, 11]
    flags := { c2s3.flags with primHasScalePivot := true } }

/-- C2 step: inserting the scalePivot pair lands between the rotatePivot
pair per the canonical Maya indices. -/
theorem c2step_insert_sp :
    insertOpRaw allOk c2s3 OpTypeE.tTranslate PrecisionE.pFloat
      TokName.scalePivot FlagId.fScalePivot false = (MStatus.success, c2s4) := by
  decide

/-- The final state of the C2 scenario: the push pass has written (1,2,3)
into the rotatePivot op and (4,5,6) into the scalePivot op and reset the
two pivot tweaks. -/
def c2Final : TMState :=
  { c2s4 with
    xformops :=
      [{ rpFwdOp with defaultVal := some (OpValue.v3 ⟨1, 2, 3⟩) }, rpInvOp,
       { spFwdOp with defaultVal := some (OpValue.v3 ⟨4, 5, 6⟩) }, spInvOp]
    rotatePivotFromUsd := ⟨1, 2, 3⟩
    rotatePivotTweak := zero3
    scalePivotFromUsd := ⟨4, 5, 6⟩
    scalePivotTweak := zero3 }

/-- C2 step: the push pass on the split stack. -/
theorem c2step_push : pushToPrim idConv idMat c2s4 = c2Final := by decide

/-- C2 step: the pivot splitter inside the recursive calls sees no
combined pivot any more and lets the plain insertion proceed. -/
theorem c2step_split_noop_s2 : splitPivotF allOk 5 c2s2 = (false, c2s2) := by decide

/-- C2 step: same early exit before the scalePivot insertion. -/
theorem c2step_split_noop_s3 : splitPivotF allOk 5 c2s3 = (false, c2s3) := by decide

/-- C2 step: the recursive `insertRotatePivotOp` reduces to the plain
paired insertion. -/
theorem c2step_irp : insertRotatePivotOpF allOk 6 c2s2 = (MStatus.success, c2s3) := by
  have e : insertRotatePivotOpF allOk 6 c2s2
      = (match splitPivotF allOk 5 c2s2 with
         | (true, s₁) => (MStatus.success, s₁)
         | (false, s₁) =>
           insertOpRaw allOk s₁ OpTypeE.tTranslate PrecisionE.pFloat
             TokName.rotatePivot FlagId.fRotatePivot false) := rfl
  rw [e, c2step_split_noop_s2]
  exact c2step_insert_rp

/-- C2 step: the recursive `insertScalePivotOp` reduces to the plain
paired insertion. -/
theorem c2step_isp : insertScalePivotOpF allOk 6 c2s3 = (MStatus.success, c2s4) := by
  have e : insertScalePivotOpF allOk 6 c2s3
      = (match splitPivotF allOk 5 c2s3 with
         | (true, s₁) => (MStatus.success, s₁)
         | (false, s₁) =>
           insertOpRaw allOk s₁ OpTypeE.tTranslate PrecisionE.pFloat
             TokName.scalePivot FlagId.fScalePivot false) := rfl
  rw [e, c2step_split_noop_s3]
  exact c2step_insert_sp

/-- C2 step: the pivot splitter on the diverged pivots removes the
combined pivot and inserts both pivot pairs. -/
theorem c2step_split : splitPivotF allOk 7 c2s1 = (true, c2s4) := by
  have e : splitPivotF allOk 7 c2s1
      = (match removeOp c2s1 TokName.pivot FlagId.fPivot with
         | (MStatus.failure, s₁) => (true, s₁)
         | (MStatus.success, s₁) =>
           match insertRotatePivotOpF allOk 6 s₁ with
           | (MStatus.failure, s₂) => (true, s₂)
           | (MStatus.success, s₂) => (true, (insertScalePivotOpF allOk 6 s₂).2)) := rfl
  rw [e, c2step_remove]
  show (match insertRotatePivotOpF allOk 6 c2s2 with
        | (MStatus.failure, s₂) => (true, s₂)
        | (MStatus.success, s₂) => (true, (insertScalePivotOpF allOk 6 s₂).2)) = _
  rw [c2step_irp]
  show (true, (insertScalePivotOpF allOk 6 c2s3).2) = _
  rw [c2step_isp]

/-- C2 step: the top-level `insertScalePivotOp` is fully handled by the
splitter. -/
theorem c2step_isp_top : insertScalePivotOpF allOk 8 c2s1 = (MStatus.success, c2s4) := by
  have e : insertScalePivotOpF allOk 8 c2s1
      = (match splitPivotF allOk 7 c2s1 with
         | (true, s₁) => (MStatus.success, s₁)
         | (false, s₁) =>
           insertOpRaw allOk s₁ OpTypeE.tTranslate PrecisionE.pFloat
             TokName.scalePivot FlagId.fScalePivot false) := rfl
  rw [e, c2step_split]

/-- The full C2 evaluation: `setScalePivot` on the combined-pivot state. -/
theorem c2eval :
    setScalePivot idConv idMat allOk pivotLit ⟨4, 5, 6⟩ = (MStatus.success, c2Final) := by
  have e : setScalePivot idConv idMat allOk pivotLit ⟨4, 5, 6⟩
      = (match insertScalePivotOpF allOk 8 c2s1 with
         | (MStatus.failure, s₃) => (MStatus.failure, s₃)
         | (MStatus.success, s₃) => (MStatus.success, pushToPrim idConv idMat s₃)) := rfl
  rw [e, c2step_isp_top]
  show (MStatus.success, pushToPrim idConv idMat c2s4) = _
  rw [c2step_push]

/-- Claim C2: from a live stack holding a single combined pivot valued
(1,2,3) (with its inverted twin) and push enabled, setting the
scale-pivot to (4,5,6) splits the pivot: the stack afterwards holds
independent rotatePivot and scalePivot operations with their inverted
twins, no combined pivot remains in either parallel list, the rotate
pivot reads (1,2,3) on the host and in the scene description, and the
scale pivot reads (4,5,6) in both. -/
theorem claim2_pivot_split_rotate_keeps_scale_diverges :
    (setScalePivot idConv idMat allOk pivotBound ⟨4, 5, 6⟩).1 = MStatus.success
    ∧ (setScalePivot idConv idMat allOk pivotBound ⟨4, 5, 6⟩).2.orderedOps =
        [rpFwdCls, rpInvCls, spFwdCls, spInvCls]
    ∧ (setScalePivot idConv idMat allOk pivotBound ⟨4, 5, 6⟩).2.xformops.map
        XformOp.opName =
        [TokName.rotatePivot, TokName.rotatePivot, TokName.scalePivot, TokName.scalePivot]
    ∧ (setScalePivot idConv idMat allOk pivotBound ⟨4, 5, 6⟩).2.xformops.map
        XformOp.isInverseOp = [false, true, false, true]
    ∧ TokName.pivot ∉
        ((setScalePivot idConv idMat allOk pivotBound ⟨4, 5, 6⟩).2.orderedOps.map
          OpClass.name)
    ∧ TokName.pivot ∉
        ((setScalePivot idConv idMat allOk pivotBound ⟨4, 5, 6⟩).2.xformops.map
          XformOp.opName)
    ∧ (setScalePivot idConv idMat allOk pivotBound ⟨4, 5, 6⟩).2.host.rotatePivotValue
        = ⟨1, 2, 3⟩
    ∧ (setScalePivot idConv idMat allOk pivotBound ⟨4, 5, 6⟩).2.host.scalePivotValue
        = ⟨4, 5, 6⟩
    ∧ readPoint
        ((setScalePivot idConv idMat allOk pivotBound ⟨4, 5, 6⟩).2.xformops.getD 0
          defaultOp)
        (setScalePivot idConv idMat allOk pivotBound ⟨4, 5, 6⟩).2.time =
        some ⟨1, 2, 3⟩
    ∧ readPoint
        ((setScalePivot idConv idMat allOk pivotBound ⟨4, 5, 6⟩).2.xformops.getD 2
          defaultOp)
        (setScalePivot idConv idMat allOk pivotBound ⟨4, 5, 6⟩).2.time =
        some ⟨4, 5, 6⟩
    ∧ (setScalePivot idConv idMat allOk pivotBound ⟨4, 5, 6⟩).2.flags.primHasPivot
        = false
    ∧ (setScalePivot idConv idMat allOk pivotBound ⟨4, 5, 6⟩).2.flags.primHasRotatePivot
        = true
    ∧ (setScalePivot idConv idMat allOk pivotBound ⟨4, 5, 6⟩).2.flags.primHasScalePivot
        = true := by
  have hb : setScalePivot idConv idMat allOk pivotBound ⟨4, 5, 6⟩
      = (MStatus.success, c2Final) := by
    rw [pivotBound_eq]; exact c2eval
  rw [hb]
  decide

/-- Claim C10: when the host reports a component locked, the matching set
call returns success immediately and the whole engine state — host slots,
tweaks, operation lists, scene values — is exactly the input state (in
particular no push happened). -/
theorem claim10_locked_set_calls_are_noops (env : ConvEnv) (menv : MatEnv)
    (addOk : AddOracle) (s : TMState) (v : Q3) (e : Euler)
    (ht : s.flags.lockedTranslation = true)
    (hr : s.flags.lockedRotation = true)
    (hs : s.flags.lockedScale = true) :
    translateTo env menv addOk s v = (MStatus.success, s)
    ∧ rotateToE env menv addOk s e = (MStatus.success, s)
    ∧ scaleTo env menv addOk s v = (MStatus.success, s) := by
  refine ⟨?_, ?_, ?_⟩
  · simp [translateTo, ht]
  · simp [rotateToE, hr]
  · simp [scaleTo, hs]

/-- A fully locked entity. -/
def lockedBound : TMState :=
  { zeroState with flags :=
      { emptyFlags with lockedTranslation := true, lockedRotation := true,
                        lockedScale := true } }

/-- Witness for claim C10 at a concrete locked entity. -/
theorem claim10_locked_set_calls_are_noops_witness :
    lockedBound.flags.lockedTranslation = true
    ∧ lockedBound.flags.lockedRotation = true
    ∧ lockedBound.flags.lockedScale = true
    ∧ (translateTo idConv idMat allOk lockedBound ⟨7, 8, 9⟩ =
        (MStatus.success, lockedBound)
      ∧ rotateToE idConv idMat allOk lockedBound ⟨1, 1, 1, RotOrder.xyz⟩ =
        (MStatus.success, lockedBound)
      ∧ scaleTo idConv idMat allOk lockedBound ⟨7, 8, 9⟩ =
        (MStatus.success, lockedBound)) :=
  ⟨by decide, by decide, by decide,
    claim10_locked_set_calls_are_noops idConv idMat allOk lockedBound ⟨7, 8, 9⟩
      ⟨1, 1, 1, RotOrder.xyz⟩ (by decide) (by decide) (by decide)⟩

end ALUsd

namespace ALUsd

/-- Helper: the first component of a pair of a zip is a member of the
first list. -/
theorem fst_mem_of_mem_zip {α β : Type} {l₁ : List α} :
    ∀ {l₂ : List β} {p : α × β}, p ∈ l₁.zip l₂ → p.1 ∈ l₁ := by
  induction l₁ with
  | nil => intro l₂ p h; simp [List.zip] at h
  | cons a t ih =>
    intro l₂ p h
    cases l₂ with
    | nil => simp [List.zip] at h
    | cons b t2 =>
      rw [List.zip_cons_cons] at h
      rcases List.mem_cons.mp h with he | hm
      · subst he; exact List.mem_cons_self a t
      · exact List.mem_cons_of_mem a (ih hm)

/-- Helper: the backwards removal scan leaves the list untouched and
reports no hit when no entry carries the requested name. -/
theorem removeRevAux_no_match (nm : TokName) :
    ∀ (l : List ((OpClass × XformOp) × Option Nat)),
      (∀ e ∈ l, e.1.1.name ≠ nm) → removeRevAux nm l false = (l, false) := by
  intro l
  induction l with
  | nil => intro h; rfl
  | cons e rest ih =>
    intro h
    have he : ¬(e.1.1.name = nm) := h e (List.mem_cons_self e rest)
    have hr := ih fun x hx => h x (List.mem_cons_of_mem e hx)
    simp [removeRevAux, he, hr]

/-- Helper: clearing a presence flag that is already clear changes
nothing. -/
theorem clearF_of_clear (f : Flags) (fl : FlagId) (h : f.getF fl = false) :
    f.clearF fl = f := by
  cases fl <;> cases f <;> simp_all [Flags.getF, Flags.clearF]

/-- Claim C7: `removeOp` asked to remove a role for which no operation of
the (non-empty) stack carries the matching classification name returns a
hard failure and leaves the state exactly as it was, operation list,
classification list, Maya index list and flags included (the presence
flag of the requested role is clear whenever the stack holds no op of
that role, so the source's unconditional flag clear changes nothing). -/
theorem claim7_remove_missing_role_is_pure_failure
    (s : TMState) (nm : TokName) (fl : FlagId)
    (hne : s.orderedOps ≠ [])
    (hnone : ∀ c ∈ s.orderedOps, c.name ≠ nm)
    (hflag : s.flags.getF fl = false) :
    removeOp s nm fl = (MStatus.failure, s) := by
  have hmem : ∀ e ∈ (((s.orderedOps.zip s.xformops).zip
      (if s.orderedOpMayaIndices.isEmpty then s.orderedOps.map fun _ => (none : Option Nat)
       else s.orderedOpMayaIndices.map some)).reverse),
      e.1.1.name ≠ nm := by
    intro e he
    rw [List.mem_reverse] at he
    exact hnone _ (fst_mem_of_mem_zip (fst_mem_of_mem_zip he))
  have hscan := removeRevAux_no_match nm _ hmem
  simp only [removeOp, hscan]
  simp [clearF_of_clear s.flags fl hflag]

/-- Witness state for C7: a stack holding one translate op, asked to
remove the combined pivot role. -/
def c7State : TMState :=
  { zeroState with
    xformops := [storedTranslateOp]
    orderedOps := [⟨TokName.translate, OpTypeE.tTranslate, false⟩]
    flags := { emptyFlags with primHasTranslation := true } }

/-- Witness for C7 at the concrete one-translate stack. -/
theorem claim7_remove_missing_role_is_pure_failure_witness :
    c7State.orderedOps ≠ []
    ∧ (∀ c ∈ c7State.orderedOps, c.name ≠ TokName.pivot)
    ∧ c7State.flags.getF FlagId.fPivot = false
    ∧ removeOp c7State TokName.pivot FlagId.fPivot = (MStatus.failure, c7State) :=
  ⟨by decide, by decide, by decide,
    claim7_remove_missing_role_is_pure_failure c7State TokName.pivot FlagId.fPivot
      (by decide) (by decide) (by decide)⟩

/-- Claim C4: with push-to-source disabled and an animated translate
operation in the stack, `translateTo v` followed by `updateToTime T`
yields a host translate equal to the source value at `T` plus the tweak
computed at edit time (`v` minus the from-source value before the edit),
so the tweak survives the time change; and `updateToTime` at the
unchanged current time is a no-op. -/
theorem claim4_translate_tweak_survives_time_change
    (env : ConvEnv) (menv : MatEnv) (addOk : AddOracle) (s : TMState)
    (c : OpClass) (op : XformOp) (v sv : Q3) (T : TimeCode)
    (hord : s.orderedOps = [c])
    (hops : s.xformops = [op])
    (hname : c.name = TokName.translate)
    (hanim : s.flags.animatedTranslation = true)
    (hlock : s.flags.lockedTranslation = false)
    (hpush : s.flags.pushToPrimEnabled = false)
    (hT : s.time ≠ T)
    (hread : readVector op T = some sv) :
    (updateToTime env menv (translateTo env menv addOk s v).2 T).host.translationValue
      = sv + (v - s.translationFromUsd)
    ∧ updateToTime env menv (translateTo env menv addOk s v).2
        (translateTo env menv addOk s v).2.time
      = (translateTo env menv addOk s v).2 := by
  have hs2 : (translateTo env menv addOk s v).2
      = { s with host := { s.host with translationValue := v }
                 translationTweak := v - s.translationFromUsd } := by
    simp [translateTo, hlock, pushAvailable, hpush]
  constructor
  · rw [hs2]
    simp [updateToTime, hT, Flags.hasAnimation, hanim, hord, hops, updStep, hname, hread]
  · rw [hs2]
    simp [updateToTime]

/-- Witness op for C4: an animated translate op with a sample at times 5
and 6. -/
def c4Op : XformOp :=
  ⟨TokName.translate, OpTypeE.tTranslate, StorageTy.vec3d, false,
    some (OpValue.v3 ⟨7, 8, 9⟩), [(5, OpValue.v3 ⟨7, 8, 9⟩), (6, OpValue.v3 ⟨10, 11, 12⟩)]⟩

/-- Witness state for C4: the animated one-translate stack at time 5 with
push disabled. -/
def c4State : TMState :=
  { zeroState with
    time := some 5
    translationFromUsd := ⟨1, 1, 1⟩
    xformops := [c4Op]
    orderedOps := [⟨TokName.translate, OpTypeE.tTranslate, false⟩]
    flags := { emptyFlags with animatedTranslation := true, primHasTranslation := true } }

/-- Witness for C4 at the concrete animated translate stack. -/
theorem claim4_translate_tweak_survives_time_change_witness :
    c4State.time ≠ some 6
    ∧ readVector c4Op (some 6) = some ⟨10, 11, 12⟩
    ∧ ((updateToTime idConv idMat (translateTo idConv idMat allOk c4State ⟨2, 2, 2⟩).2
          (some 6)).host.translationValue
        = (⟨10, 11, 12⟩ : Q3) + ((⟨2, 2, 2⟩ : Q3) - c4State.translationFromUsd)
      ∧ updateToTime idConv idMat (translateTo idConv idMat allOk c4State ⟨2, 2, 2⟩).2
          (translateTo idConv idMat allOk c4State ⟨2, 2, 2⟩).2.time
        = (translateTo idConv idMat allOk c4State ⟨2, 2, 2⟩).2) :=
  ⟨by decide, by decide,
    claim4_translate_tweak_survives_time_change idConv idMat allOk c4State
      ⟨TokName.translate, OpTypeE.tTranslate, false⟩ c4Op ⟨2, 2, 2⟩ ⟨10, 11, 12⟩ (some 6)
      (by decide) (by decide) (by decide) (by decide) (by decide) (by decide)
      (by decide) (by decide)⟩

end ALUsd

namespace ALUsd

set_option maxHeartbeats 1000000 in
/-- Helper: one classification step never changes the parallel lists, the
two matched-schema flags, and never clears the matrix-schema flag or an
animated-component flag. -/
theorem initStep_frame (env : ConvEnv) (menv : MatEnv) (r : Bool) (t : TimeCode)
    (h0 : XformOp) (s : TMState) (p : OpClass × XformOp) :
    (initStep env menv r t h0 s p).orderedOps = s.orderedOps
    ∧ (initStep env menv r t h0 s p).xformops = s.xformops
    ∧ (initStep env menv r t h0 s p).flags.fromMayaSchema = s.flags.fromMayaSchema
    ∧ (initStep env menv r t h0 s p).flags.singlePivotSchema = s.flags.singlePivotSchema
    ∧ (s.flags.fromMatrix = true → (initStep env menv r t h0 s p).flags.fromMatrix = true)
    ∧ (s.flags.animatedTranslation = true →
        (initStep env menv r t h0 s p).flags.animatedTranslation = true)
    ∧ (s.flags.animatedRotation = true →
        (initStep env menv r t h0 s p).flags.animatedRotation = true)
    ∧ (s.flags.animatedScale = true →
        (initStep env menv r t h0 s p).flags.animatedScale = true)
    ∧ (s.flags.animatedShear = true →
        (initStep env menv r t h0 s p).flags.animatedShear = true)
    ∧ (s.flags.animatedMatrix = true →
        (initStep env menv r t h0 s p).flags.animatedMatrix = true) := by
  rcases p with ⟨c, op⟩
  rcases c with ⟨nm, ty, inv⟩
  cases inv <;> cases nm <;>
    (simp only [initStep]
     refine ⟨?_, ?_, ?_, ?_, ?_, ?_, ?_, ?_, ?_, ?_⟩ <;> (try intro h) <;>
       (repeat' split) <;> simp_all)

/-- Helper: the classification fold preserves the same components as one
step. -/
theorem initFold_frame (env : ConvEnv) (menv : MatEnv) (r : Bool) (t : TimeCode)
    (h0 : XformOp) :
    ∀ (l : List (OpClass × XformOp)) (s : TMState),
      (l.foldl (initStep env menv r t h0) s).orderedOps = s.orderedOps
      ∧ (l.foldl (initStep env menv r t h0) s).xformops = s.xformops
      ∧ (l.foldl (initStep env menv r t h0) s).flags.fromMayaSchema
          = s.flags.fromMayaSchema
      ∧ (l.foldl (initStep env menv r t h0) s).flags.singlePivotSchema
          = s.flags.singlePivotSchema
      ∧ (s.flags.fromMatrix = true →
          (l.foldl (initStep env menv r t h0) s).flags.fromMatrix = true)
      ∧ (s.flags.animatedTranslation = true →
          (l.foldl (initStep env menv r t h0) s).flags.animatedTranslation = true)
      ∧ (s.flags.animatedRotation = true →
          (l.foldl (initStep env menv r t h0) s).flags.animatedRotation = true)
      ∧ (s.flags.animatedScale = true →
          (l.foldl (initStep env menv r t h0) s).flags.animatedScale = true)
      ∧ (s.flags.animatedShear = true →
          (l.foldl (initStep env menv r t h0) s).flags.animatedShear = true)
      ∧ (s.flags.animatedMatrix = true →
          (l.foldl (initStep env menv r t h0) s).flags.animatedMatrix = true) := by
  intro l
  induction l with
  | nil =>
    intro s
    exact ⟨rfl, rfl, rfl, rfl, fun h => h, fun h => h, fun h => h, fun h => h,
           fun h => h, fun h => h⟩
  | cons q l ih =>
    intro s
    have h1 := initStep_frame env menv r t h0 s q
    have h2 := ih (initStep env menv r t h0 s q)
    exact ⟨h2.1.trans h1.1, h2.2.1.trans h1.2.1, h2.2.2.1.trans h1.2.2.1,
           h2.2.2.2.1.trans h1.2.2.2.1,
           fun h => h2.2.2.2.2.1 (h1.2.2.2.2.1 h),
           fun h => h2.2.2.2.2.2.1 (h1.2.2.2.2.2.1 h),
           fun h => h2.2.2.2.2.2.2.1 (h1.2.2.2.2.2.2.1 h),
           fun h => h2.2.2.2.2.2.2.2.1 (h1.2.2.2.2.2.2.2.1 h),
           fun h => h2.2.2.2.2.2.2.2.2.1 (h1.2.2.2.2.2.2.2.2.1 h),
           fun h => h2.2.2.2.2.2.2.2.2.2 (h1.2.2.2.2.2.2.2.2.2 h)⟩

/-- Helper: the classification step on a non-inverted pair with more than
one time sample marks the animated flag of its role. -/
theorem initStep_marks_animated (env : ConvEnv) (menv : MatEnv) (r : Bool)
    (t : TimeCode) (h0 : XformOp) (s : TMState) (c : OpClass) (op : XformOp)
    (hinv : c.isInvertedTwin = false) (hsamp : 1 < op.numTimeSamples) :
    (c.name = TokName.translate →
      (initStep env menv r t h0 s (c, op)).flags.animatedTranslation = true)
    ∧ (c.name = TokName.rotate →
      (initStep env menv r t h0 s (c, op)).flags.animatedRotation = true)
    ∧ (c.name = TokName.scale →
      (initStep env menv r t h0 s (c, op)).flags.animatedScale = true)
    ∧ (c.name = TokName.shear →
      (initStep env menv r t h0 s (c, op)).flags.animatedShear = true)
    ∧ (c.name = TokName.transform →
      (initStep env menv r t h0 s (c, op)).flags.animatedMatrix = true) := by
  refine ⟨?_, ?_, ?_, ?_, ?_⟩ <;> intro hnm <;>
    simp [initStep, hinv, hnm, hsamp] <;> (repeat' split) <;> simp_all

/-- Helper: the classification fold marks the animated flag of every
non-inverted visited pair with more than one time sample. -/
theorem initFold_marks_animated (env : ConvEnv) (menv : MatEnv) (r : Bool)
    (t : TimeCode) (h0 : XformOp) :
    ∀ (l : List (OpClass × XformOp)) (s : TMState) (p : OpClass × XformOp),
      p ∈ l → p.1.isInvertedTwin = false → 1 < p.2.numTimeSamples →
      ((p.1.name = TokName.translate →
          (l.foldl (initStep env menv r t h0) s).flags.animatedTranslation = true)
       ∧ (p.1.name = TokName.rotate →
          (l.foldl (initStep env menv r t h0) s).flags.animatedRotation = true)
       ∧ (p.1.name = TokName.scale →
          (l.foldl (initStep env menv r t h0) s).flags.animatedScale = true)
       ∧ (p.1.name = TokName.shear →
          (l.foldl (initStep env menv r t h0) s).flags.animatedShear = true)
       ∧ (p.1.name = TokName.transform →
          (l.foldl (initStep env menv r t h0) s).flags.animatedMatrix = true)) := by
  intro l
  induction l with
  | nil => intro s p hm; exact absurd hm (List.not_mem_nil p)
  | cons q l ih =>
    intro s p hm hinv hs
    rcases List.mem_cons.mp hm with he | hm2
    · subst he
      have h1 := initStep_marks_animated env menv r t h0 s p.1 p.2 hinv hs
      have h2 := initFold_frame env menv r t h0 l (initStep env menv r t h0 s p)
      exact ⟨fun hnm => h2.2.2.2.2.2.1 (h1.1 hnm),
             fun hnm => h2.2.2.2.2.2.2.1 (h1.2.1 hnm),
             fun hnm => h2.2.2.2.2.2.2.2.1 (h1.2.2.1 hnm),
             fun hnm => h2.2.2.2.2.2.2.2.2.1 (h1.2.2.2.1 hnm),
             fun hnm => h2.2.2.2.2.2.2.2.2.2 (h1.2.2.2.2 hnm)⟩
    · exact ih (initStep env menv r t h0 s q) p hm2 hinv hs

/-- Helper: the classification loop preserves the lists, the two
matched-schema flags, and keeps the matrix-schema flag set. -/
theorem initLoop_frame (env : ConvEnv) (menv : MatEnv) (r : Bool)
    (ops : List XformOp) (s₁ : TMState) :
    (initLoop env menv r ops s₁).orderedOps = s₁.orderedOps
    ∧ (initLoop env menv r ops s₁).xformops = s₁.xformops
    ∧ (initLoop env menv r ops s₁).flags.fromMayaSchema = s₁.flags.fromMayaSchema
    ∧ (initLoop env menv r ops s₁).flags.singlePivotSchema = s₁.flags.singlePivotSchema
    ∧ (s₁.flags.fromMatrix = true →
        (initLoop env menv r ops s₁).flags.fromMatrix = true) := by
  unfold initLoop
  split
  · have hf := initFold_frame env menv r s₁.time (ops.headD defaultOp)
      (s₁.orderedOps.zip ops) s₁
    exact ⟨hf.1, hf.2.1, hf.2.2.1, hf.2.2.2.1, hf.2.2.2.2.1⟩
  · exact ⟨rfl, rfl, rfl, rfl, fun h => h⟩

/-- Helper: the animation lock changes only the push-to-prim and
read-animated-values flags. -/
theorem animLock_frame (s : TMState) :
    (animLock s).orderedOps = s.orderedOps
    ∧ (animLock s).xformops = s.xformops
    ∧ (animLock s).flags.fromMayaSchema = s.flags.fromMayaSchema
    ∧ (animLock s).flags.singlePivotSchema = s.flags.singlePivotSchema
    ∧ (animLock s).flags.fromMatrix = s.flags.fromMatrix
    ∧ (animLock s).flags.animatedTranslation = s.flags.animatedTranslation
    ∧ (animLock s).flags.animatedRotation = s.flags.animatedRotation
    ∧ (animLock s).flags.animatedScale = s.flags.animatedScale
    ∧ (animLock s).flags.animatedShear = s.flags.animatedShear
    ∧ (animLock s).flags.animatedMatrix = s.flags.animatedMatrix
    ∧ (animLock s).flags.hasAnimation = s.flags.hasAnimation := by
  unfold animLock
  split
  · exact ⟨rfl, rfl, rfl, rfl, rfl, rfl, rfl, rfl, rfl, rfl, rfl⟩
  · exact ⟨rfl, rfl, rfl, rfl, rfl, rfl, rfl, rfl, rfl, rfl, rfl⟩

/-- Helper: with animation present, the animation lock forces
push-to-prim off and read-animated-values on. -/
theorem animLock_locks (s : TMState) (h : s.flags.hasAnimation = true) :
    (animLock s).flags.pushToPrimEnabled = false
    ∧ (animLock s).flags.readAnimatedValues = true := by
  unfold animLock
  rw [h]
  exact ⟨rfl, rfl⟩

/-- Helper: `animLock_locks` read off the locked state itself. -/
theorem animLock_self_locked (s : TMState)
    (h : (animLock s).flags.hasAnimation = true) :
    (animLock s).flags.pushToPrimEnabled = false
    ∧ (animLock s).flags.readAnimatedValues = true :=
  animLock_locks s (((animLock_frame s).2.2.2.2.2.2.2.2.2.2).symm.trans h)

/-- Helper: a non-empty list is not `isEmpty`. -/
theorem isEmpty_false_of_ne_nil {α : Type} {l : List α} (h : l ≠ []) :
    l.isEmpty = false := by
  cases l with
  | nil => exact absurd rfl h
  | cons a t => rfl

/-- Helper: when the schema selection sets no known-schema flag, it also
selects no classification. -/
theorem selSchema_empty_of_unknown (fl : Flags) (ops : List XformOp)
    (h : (selSchema fl ops).1.anyKnownSchema = false) :
    (selSchema fl ops).2 = [] := by
  unfold selSchema at h ⊢
  repeat' split <;> simp_all [Flags.anyKnownSchema]

/-- Helper: the loop-then-lock tail of initialisation marks the animated
flag of every non-inverted classified pair carrying more than one time
sample, for any entry state whose op list is the folded one and whose
classification list is empty when no schema flag is set. -/
theorem animLock_initLoop_marks (env : ConvEnv) (menv : MatEnv) (r : Bool)
    (ops : List XformOp) (s₁ : TMState) (hx : s₁.xformops = ops)
    (hks : s₁.flags.anyKnownSchema = false → s₁.orderedOps = []) :
    ∀ p ∈ (animLock (initLoop env menv r ops s₁)).orderedOps.zip
        (animLock (initLoop env menv r ops s₁)).xformops,
      p.1.isInvertedTwin = false → 1 < p.2.numTimeSamples →
      ((p.1.name = TokName.translate →
          (animLock (initLoop env menv r ops s₁)).flags.animatedTranslation = true)
       ∧ (p.1.name = TokName.rotate →
          (animLock (initLoop env menv r ops s₁)).flags.animatedRotation = true)
       ∧ (p.1.name = TokName.scale →
          (animLock (initLoop env menv r ops s₁)).flags.animatedScale = true)
       ∧ (p.1.name = TokName.shear →
          (animLock (initLoop env menv r ops s₁)).flags.animatedShear = true)
       ∧ (p.1.name = TokName.transform →
          (animLock (initLoop env menv r ops s₁)).flags.animatedMatrix = true)) := by
  intro p hp hinv hs
  have hOO : (animLock (initLoop env menv r ops s₁)).orderedOps = s₁.orderedOps :=
    (animLock_frame _).1.trans (initLoop_frame env menv r ops s₁).1
  have hXO : (animLock (initLoop env menv r ops s₁)).xformops = s₁.xformops :=
    (animLock_frame _).2.1.trans (initLoop_frame env menv r ops s₁).2.1
  rw [hOO, hXO, hx] at hp
  by_cases hk : s₁.flags.anyKnownSchema = true
  · have e : initLoop env menv r ops s₁
        = (s₁.orderedOps.zip ops).foldl
            (initStep env menv r s₁.time (ops.headD defaultOp)) s₁ := by
      unfold initLoop
      rw [hk]
      rfl
    rw [e]
    have hm := initFold_marks_animated env menv r s₁.time (ops.headD defaultOp)
        (s₁.orderedOps.zip ops) s₁ p hp hinv hs
    exact ⟨fun hnm => ((animLock_frame _).2.2.2.2.2.1).trans (hm.1 hnm),
           fun hnm => ((animLock_frame _).2.2.2.2.2.2.1).trans (hm.2.1 hnm),
           fun hnm => ((animLock_frame _).2.2.2.2.2.2.2.1).trans (hm.2.2.1 hnm),
           fun hnm => ((animLock_frame _).2.2.2.2.2.2.2.2.1).trans (hm.2.2.2.1 hnm),
           fun hnm => ((animLock_frame _).2.2.2.2.2.2.2.2.2.1).trans (hm.2.2.2.2 hnm)⟩
  · have h0 : s₁.orderedOps = [] := hks (by
      revert hk
      cases s₁.flags.anyKnownSchema <;> simp)
    rw [h0] at hp
    simp at hp

/-- Claim C8: after `initialiseToPrim`, every non-inverted classified
operation of the adopted stack with more than one time sample has its
component marked animated (translate, rotate, scale, shear, opaque
matrix), and whenever any component is marked animated, the push-to-prim
flag is forced off and the read-animated-values flag is forced on,
regardless of their prior state. -/
theorem claim8_time_samples_mark_animated_and_lock_push
    (env : ConvEnv) (menv : MatEnv) (r : Bool) (ops : List XformOp)
    (resets : Bool) (s : TMState) :
    (∀ p ∈ (initialiseToPrim env menv r ops resets s).orderedOps.zip
        (initialiseToPrim env menv r ops resets s).xformops,
      p.1.isInvertedTwin = false → 1 < p.2.numTimeSamples →
      ((p.1.name = TokName.translate →
          (initialiseToPrim env menv r ops resets s).flags.animatedTranslation = true)
       ∧ (p.1.name = TokName.rotate →
          (initialiseToPrim env menv r ops resets s).flags.animatedRotation = true)
       ∧ (p.1.name = TokName.scale →
          (initialiseToPrim env menv r ops resets s).flags.animatedScale = true)
       ∧ (p.1.name = TokName.shear →
          (initialiseToPrim env menv r ops resets s).flags.animatedShear = true)
       ∧ (p.1.name = TokName.transform →
          (initialiseToPrim env menv r ops resets s).flags.animatedMatrix = true)))
    ∧ ((initialiseToPrim env menv r ops resets s).flags.hasAnimation = true →
        (initialiseToPrim env menv r ops resets s).flags.pushToPrimEnabled = false
        ∧ (initialiseToPrim env menv r ops resets s).flags.readAnimatedValues = true) := by
  constructor
  · exact animLock_initLoop_marks env menv r ops
      { s with
        flags := (selSchema (if !resets then { s.flags with inheritsTransform := true }
            else s.flags) ops).1
        xformops := ops
        orderedOps := (selSchema (if !resets then { s.flags with inheritsTransform := true }
            else s.flags) ops).2
        orderedOpMayaIndices := [] }
      rfl
      (selSchema_empty_of_unknown
        (if !resets then { s.flags with inheritsTransform := true } else s.flags) ops)
  · exact fun h => animLock_self_locked _ h

end ALUsd

namespace ALUsd

/-- Helper: a successful greedy alignment classifies every op, so the
returned classification list has the length of the op list. -/
theorem greedyMatch_length :
    ∀ (schema : List OpClass) (ops : List XformOp) (ret : List OpClass),
      greedyMatch schema ops = some ret → ret.length = ops.length := by
  intro schema ops
  induction ops generalizing schema with
  | nil =>
    intro ret h
    simp [greedyMatch] at h
    subst h
    rfl
  | cons op rest ih =>
    intro ret h
    simp only [greedyMatch] at h
    rcases hf : findFirstMatch schema op with _ | ⟨c, schemaRest⟩
    · rw [hf] at h
      simp at h
    · rw [hf] at h
      have h3 : Option.map (fun x => c :: x) (greedyMatch schemaRest rest) = some ret := h
      rcases hg : greedyMatch schemaRest rest with _ | ret2
      · rw [hg] at h3
        simp at h3
      · rw [hg] at h3
        simp at h3
        subst h3
        simp [ih schemaRest ret2 hg]

/-- Helper: a non-empty matching substack is a complete match — its
classification list covers every op. -/
theorem matchingSubstack_length (st : XformStack) (ops : List XformOp)
    (h : matchingSubstack st ops ≠ []) :
    (matchingSubstack st ops).length = ops.length := by
  unfold matchingSubstack at h ⊢
  by_cases hE : ops.isEmpty = true
  · rw [if_pos hE] at h
    exact absurd rfl h
  · rw [if_neg hE] at h ⊢
    rcases hg : greedyMatch st.ops ops with _ | ret
    · rw [hg] at h
      exact absurd rfl h
    · rw [hg] at h
      have h2 : (if twinsOk st ret then ret else []) ≠ [] := h
      by_cases ht : twinsOk st ret = true
      · show (if twinsOk st ret then ret else []).length = ops.length
        rw [if_pos ht]
        exact greedyMatch_length st.ops ops ret hg
      · rw [if_neg ht] at h2
        exact absurd rfl h2

/-- Helper: schema selection on an empty op list adopts the Maya schema
trivially. -/
theorem selSchema_nil (fl : Flags) :
    selSchema fl [] = ({ fl with fromMayaSchema := true }, []) := by
  simp [selSchema]

/-- Helper: a complete Maya-stack match wins the selection. -/
theorem selSchema_maya (fl : Flags) (ops : List XformOp) (hne : ops ≠ [])
    (hm : matchingSubstack mayaStack ops ≠ []) :
    selSchema fl ops
      = ({ fl with fromMayaSchema := true }, matchingSubstack mayaStack ops) := by
  unfold selSchema
  rw [isEmpty_false_of_ne_nil hne]
  rcases hmm : matchingSubstack mayaStack ops with _ | ⟨c, cs⟩
  · exact absurd hmm hm
  · rfl

/-- Helper: with no Maya-stack match, a complete single-pivot match wins. -/
theorem selSchema_singlePivot (fl : Flags) (ops : List XformOp) (hne : ops ≠ [])
    (hm : matchingSubstack mayaStack ops = [])
    (hsp : matchingSubstack singlePivotStack ops ≠ []) :
    selSchema fl ops
      = ({ fl with singlePivotSchema := true }, matchingSubstack singlePivotStack ops) := by
  unfold selSchema
  rw [isEmpty_false_of_ne_nil hne, hm]
  rcases hss : matchingSubstack singlePivotStack ops with _ | ⟨c, cs⟩
  · exact absurd hss hsp
  · rfl

/-- Helper: with no Maya-stack and no single-pivot match, a complete
matrix-stack match wins. -/
theorem selSchema_matrix (fl : Flags) (ops : List XformOp) (hne : ops ≠ [])
    (hm : matchingSubstack mayaStack ops = [])
    (hsp : matchingSubstack singlePivotStack ops = [])
    (hmx : matchingSubstack matrixStack ops ≠ []) :
    selSchema fl ops
      = ({ fl with fromMatrix := true }, matchingSubstack matrixStack ops) := by
  unfold selSchema
  rw [isEmpty_false_of_ne_nil hne, hm, hsp]
  rcases hxx : matchingSubstack matrixStack ops with _ | ⟨c, cs⟩
  · exact absurd hxx hmx
  · rfl

/-- Helper: with no complete match anywhere, no schema flag is set and no
classification adopted. -/
theorem selSchema_none (fl : Flags) (ops : List XformOp) (hne : ops ≠ [])
    (hm : matchingSubstack mayaStack ops = [])
    (hsp : matchingSubstack singlePivotStack ops = [])
    (hmx : matchingSubstack matrixStack ops = []) :
    selSchema fl ops = (fl, []) := by
  unfold selSchema
  rw [isEmpty_false_of_ne_nil hne, hm, hsp, hmx]
  rfl

/-- Helper: the transform-inheritance flag update changes none of the
three schema flags. -/
theorem fl1_schema_flags (s : TMState) (resets : Bool) :
    ((if !resets then { s.flags with inheritsTransform := true }
        else s.flags).fromMayaSchema = s.flags.fromMayaSchema)
    ∧ ((if !resets then { s.flags with inheritsTransform := true }
        else s.flags).singlePivotSchema = s.flags.singlePivotSchema)
    ∧ ((if !resets then { s.flags with inheritsTransform := true }
        else s.flags).fromMatrix = s.flags.fromMatrix) := by
  cases resets <;> exact ⟨rfl, rfl, rfl⟩

/-- Helper: the classification loop is the identity when no
classification was adopted. -/
theorem initLoop_nil (env : ConvEnv) (menv : MatEnv) (r : Bool)
    (ops : List XformOp) (s₁ : TMState) (h : s₁.orderedOps = []) :
    initLoop env menv r ops s₁ = s₁ := by
  unfold initLoop
  rw [h]
  split <;> rfl

/-- Helper: the loop-then-lock tail of initialisation keeps the adopted
classification list, reports the two matched-schema flags unchanged,
keeps the matrix-schema flag set, and preserves it exactly when no
classification was adopted. -/
theorem initTail_adopts (env : ConvEnv) (menv : MatEnv) (r : Bool)
    (ops : List XformOp) (s : TMState) (fl : Flags) (cls : List OpClass) :
    (animLock (initLoop env menv r ops
        { s with flags := fl, xformops := ops, orderedOps := cls,
                 orderedOpMayaIndices := [] })).orderedOps = cls
    ∧ (animLock (initLoop env menv r ops
        { s with flags := fl, xformops := ops, orderedOps := cls,
                 orderedOpMayaIndices := [] })).flags.fromMayaSchema = fl.fromMayaSchema
    ∧ (animLock (initLoop env menv r ops
        { s with flags := fl, xformops := ops, orderedOps := cls,
                 orderedOpMayaIndices := [] })).flags.singlePivotSchema
        = fl.singlePivotSchema
    ∧ (fl.fromMatrix = true →
        (animLock (initLoop env menv r ops
          { s with flags := fl, xformops := ops, orderedOps := cls,
                   orderedOpMayaIndices := [] })).flags.fromMatrix = true)
    ∧ (cls = [] →
        (animLock (initLoop env menv r ops
          { s with flags := fl, xformops := ops, orderedOps := cls,
                   orderedOpMayaIndices := [] })).flags.fromMatrix = fl.fromMatrix) := by
  refine ⟨?_, ?_, ?_, ?_, ?_⟩
  · exact (animLock_frame _).1.trans (initLoop_frame env menv r ops _).1
  · exact (animLock_frame _).2.2.1.trans (initLoop_frame env menv r ops _).2.2.1
  · exact (animLock_frame _).2.2.2.1.trans (initLoop_frame env menv r ops _).2.2.2.1
  · intro h
    exact ((animLock_frame _).2.2.2.2.1).trans ((initLoop_frame env menv r ops _).2.2.2.2 h)
  · intro hcls
    subst hcls
    rw [initLoop_nil env menv r ops _ rfl]
    exact (animLock_frame _).2.2.2.2.1

/-- Claim C5: schema matching tries the known schemas in fixed priority
order — full Maya stack first, then the single-combined-pivot stack, then
the matrix-only stack — and adopts the classification of the first schema
yielding a complete match (a complete match classifies every op, so a
partial match is discarded as the empty list); when no schema matches
completely, no schema flag is set and no classification is adopted; an
empty operation list is trivially treated as matching the from-Maya
schema. -/
theorem claim5_schema_priority_order
    (env : ConvEnv) (menv : MatEnv) (r : Bool) (ops : List XformOp)
    (resets : Bool) (s : TMState)
    (h1 : s.flags.fromMayaSchema = false)
    (h2 : s.flags.singlePivotSchema = false)
    (h3 : s.flags.fromMatrix = false) :
    (∀ st : XformStack, matchingSubstack st ops ≠ [] →
       (matchingSubstack st ops).length = ops.length)
    ∧ (ops = [] →
        (initialiseToPrim env menv r ops resets s).flags.fromMayaSchema = true
        ∧ (initialiseToPrim env menv r ops resets s).orderedOps = [])
    ∧ (ops ≠ [] → matchingSubstack mayaStack ops ≠ [] →
        (initialiseToPrim env menv r ops resets s).flags.fromMayaSchema = true
        ∧ (initialiseToPrim env menv r ops resets s).orderedOps
            = matchingSubstack mayaStack ops)
    ∧ (ops ≠ [] → matchingSubstack mayaStack ops = [] →
        matchingSubstack singlePivotStack ops ≠ [] →
        (initialiseToPrim env menv r ops resets s).flags.singlePivotSchema = true
        ∧ (initialiseToPrim env menv r ops resets s).orderedOps
            = matchingSubstack singlePivotStack ops)
    ∧ (ops ≠ [] → matchingSubstack mayaStack ops = [] →
        matchingSubstack singlePivotStack ops = [] →
        matchingSubstack matrixStack ops ≠ [] →
        (initialiseToPrim env menv r ops resets s).flags.fromMatrix = true
        ∧ (initialiseToPrim env menv r ops resets s).orderedOps
            = matchingSubstack matrixStack ops)
    ∧ (ops ≠ [] → matchingSubstack mayaStack ops = [] →
        matchingSubstack singlePivotStack ops = [] →
        matchingSubstack matrixStack ops = [] →
        (initialiseToPrim env menv r ops resets s).flags.fromMayaSchema = false
        ∧ (initialiseToPrim env menv r ops resets s).flags.singlePivotSchema = false
        ∧ (initialiseToPrim env menv r ops resets s).flags.fromMatrix = false
        ∧ (initialiseToPrim env menv r ops resets s).orderedOps = []) := by
  have e : initialiseToPrim env menv r ops resets s
      = animLock (initLoop env menv r ops
          { s with
            flags := (selSchema (if !resets then { s.flags with inheritsTransform := true }
                else s.flags) ops).1
            xformops := ops
            orderedOps := (selSchema (if !resets then { s.flags with inheritsTransform := true }
                else s.flags) ops).2
            orderedOpMayaIndices := [] }) := rfl
  rw [e]
  refine ⟨fun st => matchingSubstack_length st ops, ?_, ?_, ?_, ?_, ?_⟩
  · intro h0
    subst h0
    have ht := initTail_adopts env menv r [] s
      (selSchema (if !resets then { s.flags with inheritsTransform := true }
        else s.flags) []).1
      (selSchema (if !resets then { s.flags with inheritsTransform := true }
        else s.flags) []).2
    constructor
    · rw [ht.2.1, selSchema_nil]
    · rw [ht.1, selSchema_nil]
  · intro hne hm
    have ht := initTail_adopts env menv r ops s
      (selSchema (if !resets then { s.flags with inheritsTransform := true }
        else s.flags) ops).1
      (selSchema (if !resets then { s.flags with inheritsTransform := true }
        else s.flags) ops).2
    constructor
    · rw [ht.2.1, selSchema_maya _ ops hne hm]
    · rw [ht.1, selSchema_maya _ ops hne hm]
  · intro hne hm hsp
    have ht := initTail_adopts env menv r ops s
      (selSchema (if !resets then { s.flags with inheritsTransform := true }
        else s.flags) ops).1
      (selSchema (if !resets then { s.flags with inheritsTransform := true }
        else s.flags) ops).2
    constructor
    · rw [ht.2.2.1, selSchema_singlePivot _ ops hne hm hsp]
    · rw [ht.1, selSchema_singlePivot _ ops hne hm hsp]
  · intro hne hm hsp hmx
    have ht := initTail_adopts env menv r ops s
      (selSchema (if !resets then { s.flags with inheritsTransform := true }
        else s.flags) ops).1
      (selSchema (if !resets then { s.flags with inheritsTransform := true }
        else s.flags) ops).2
    constructor
    · refine ht.2.2.2.1 ?_
      rw [selSchema_matrix _ ops hne hm hsp hmx]
    · rw [ht.1, selSchema_matrix _ ops hne hm hsp hmx]
  · intro hne hm hsp hmx
    have hsel := selSchema_none (if !resets then { s.flags with inheritsTransform := true }
      else s.flags) ops hne hm hsp hmx
    have ht := initTail_adopts env menv r ops s
      (selSchema (if !resets then { s.flags with inheritsTransform := true }
        else s.flags) ops).1
      (selSchema (if !resets then { s.flags with inheritsTransform := true }
        else s.flags) ops).2
    have hcls : (selSchema (if !resets then { s.flags with inheritsTransform := true }
        else s.flags) ops).2 = [] := by rw [hsel]
    refine ⟨?_, ?_, ?_, ?_⟩
    · rw [ht.2.1, hsel]
      exact ((fl1_schema_flags s resets).1).trans h1
    · rw [ht.2.2.1, hsel]
      exact ((fl1_schema_flags s resets).2.1).trans h2
    · rw [ht.2.2.2.2 hcls, hsel]
      exact ((fl1_schema_flags s resets).2.2).trans h3
    · rw [ht.1, hsel]

/-- Witness ops for C5: a single translate op, a complete match of the
full Maya stack. -/
def c5Ops : List XformOp :=
  [⟨TokName.translate, OpTypeE.tTranslate, StorageTy.vec3f, false, none, []⟩]

/-- Witness for C5 at the concrete one-translate stack. -/
theorem claim5_schema_priority_order_witness :
    matchingSubstack mayaStack c5Ops ≠ []
    ∧ (matchingSubstack mayaStack c5Ops).length = c5Ops.length
    ∧ (initialiseToPrim idConv idMat true c5Ops false zeroState).flags.fromMayaSchema = true
    ∧ (initialiseToPrim idConv idMat true c5Ops false zeroState).orderedOps
        = matchingSubstack mayaStack c5Ops := by
  have h := claim5_schema_priority_order idConv idMat true c5Ops false zeroState
    (by decide) (by decide) (by decide)
  have h3 := h.2.2.1 (by decide) (by decide)
  exact ⟨by decide, h.1 mayaStack (by decide), h3.1, h3.2⟩

end ALUsd

namespace ALUsd

/-- Helper: updating an association list and looking the key up returns
the stored value. -/
theorem sampleSet_lookup (τ : Int) (v : OpValue) :
    ∀ l : List (Int × OpValue), (sampleSet l τ v).lookup τ = some v := by
  intro l
  induction l with
  | nil => simp [sampleSet, List.lookup]
  | cons e rest ih =>
    rcases e with ⟨t0, v0⟩
    by_cases h : t0 = τ
    · subst h
      simp [sampleSet, List.lookup]
    · have hb : (τ == t0) = false := beq_eq_false_iff_ne.mpr fun he => h he.symm
      simp [sampleSet, h, List.lookup, hb, ih]

/-- Helper: the value observable at the write time after `setValueAt` is
the written value. -/
theorem valueAt_setValueAt (op : XformOp) (t : TimeCode) (v : OpValue) :
    (op.setValueAt t v).valueAt t = some v := by
  rcases t with _ | τ
  · rfl
  · simp [XformOp.setValueAt, XformOp.valueAt, sampleSet_lookup]

/-- Helper: a sampled write leaves the default-time value untouched. -/
theorem valueAt_none_setValueAt_some (op : XformOp) (τ : Int) (v : OpValue) :
    (op.setValueAt (some τ) v).valueAt none = op.valueAt none := rfl

/-- Helper: repeating the identical association-list update is the
identity. -/
theorem sampleSet_idem (τ : Int) (v : OpValue) :
    ∀ l : List (Int × OpValue), sampleSet (sampleSet l τ v) τ v = sampleSet l τ v := by
  intro l
  induction l with
  | nil => simp [sampleSet]
  | cons e rest ih =>
    rcases e with ⟨t0, v0⟩
    by_cases h : t0 = τ
    · subst h
      simp [sampleSet]
    · simp [sampleSet, h, ih]

/-- Helper: repeating the identical write does not change the op. -/
theorem setValueAt_idem (op : XformOp) (t : TimeCode) (v : OpValue) :
    (op.setValueAt t v).setValueAt t v = op.setValueAt t v := by
  rcases t with _ | τ
  · rfl
  · simp [XformOp.setValueAt, sampleSet_idem]

/-- Helper: a write changes neither the identity nor the storage of the
op. -/
theorem setValueAt_fields (op : XformOp) (t : TimeCode) (v : OpValue) :
    (op.setValueAt t v).storage = op.storage
    ∧ (op.setValueAt t v).opType = op.opType
    ∧ (op.setValueAt t v).opName = op.opName := by
  rcases t with _ | τ <;> exact ⟨rfl, rfl, rfl⟩

/-- Helper: `pushVector` skips the store when the converted value equals
the stored one, returning success without writing. -/
theorem pushVector_skip (env : ConvEnv) (v : Q3) (op : XformOp) (t : TimeCode)
    (w : Q3) (hst : vecStoreVal env op.storage v = some w)
    (hvt : op.valueAt t = some (OpValue.v3 w)) :
    pushVector env v op t = ⟨op, true, false⟩ := by
  simp [pushVector, hst, hvt]

/-- Helper: `pushPoint` skips the store when the converted value equals
the stored one. -/
theorem pushPoint_skip (env : ConvEnv) (v : Q3) (op : XformOp) (t : TimeCode)
    (w : Q3) (hst : vecStoreVal env op.storage v = some w)
    (hvt : op.valueAt t = some (OpValue.v3 w)) :
    pushPoint env v op t = ⟨op, true, false⟩ := by
  simp [pushPoint, hst, hvt]

/-- Helper: `pushDouble` skips the store when the converted value equals
the value stored at the default time. -/
theorem pushDouble_skip (env : ConvEnv) (v : Int) (op : XformOp) (t : TimeCode)
    (w : Int) (hst : scalarStoreVal env op.storage v = some w)
    (hvt : op.valueAt none = some (OpValue.sc w)) :
    pushDouble env v op t = (op, false) := by
  simp [pushDouble, hst, hvt]

/-- Helper: `pushShear` skips the store when the shear matrix equals the
stored one (still returning its constant false). -/
theorem pushShear_skip (v : Q3) (op : XformOp) (t : TimeCode)
    (hst : op.storage = StorageTy.matrix4d)
    (hvt : op.valueAt t = some (OpValue.m4 (shearM4 v))) :
    pushShear v op t = ⟨op, false, false⟩ := by
  simp [pushShear, hst, hvt]

/-- Helper: `pushMatrix` skips the store when the matrix equals the
stored one. -/
theorem pushMatrix_skip (m : M4) (op : XformOp) (t : TimeCode)
    (hst : op.storage = StorageTy.matrix4d)
    (hvt : op.valueAt t = some (OpValue.m4 m)) :
    pushMatrix m op t = ⟨op, true, false⟩ := by
  simp [pushMatrix, hst, hvt]

/-- Helper: writing the same vector twice through `pushVector` yields the
op of the first write. -/
theorem pushVector_op_idem (env : ConvEnv) (v : Q3) (op : XformOp) (t : TimeCode) :
    (pushVector env v (pushVector env v op t).op t).op = (pushVector env v op t).op := by
  rcases h : vecStoreVal env op.storage v with _ | w
  · have e : pushVector env v op t = ⟨op, false, false⟩ := by
      simp [pushVector, h]
    rw [e]
    dsimp only
    rw [e]
  · by_cases hskip : op.valueAt t = some (OpValue.v3 w)
    · have e := pushVector_skip env v op t w h hskip
      rw [e]
      dsimp only
      rw [e]
    · have e : pushVector env v op t = ⟨op.setValueAt t (OpValue.v3 w), true, true⟩ := by
        rcases h2 : op.valueAt t with _ | val
        · simp [pushVector, h, h2]
        · cases val with
          | v3 u =>
            have hu : u ≠ w := fun he => hskip (by rw [h2, he])
            simp [pushVector, h, h2, hu]
          | sc u => simp [pushVector, h, h2]
          | m4 m => simp [pushVector, h, h2]
      have e2 := pushVector_skip env v (op.setValueAt t (OpValue.v3 w)) t w
        (by rw [(setValueAt_fields op t (OpValue.v3 w)).1]; exact h)
        (valueAt_setValueAt op t (OpValue.v3 w))
      rw [e]
      dsimp only
      rw [e2]

/-- Helper: writing the same point twice through `pushPoint` yields the
op of the first write. -/
theorem pushPoint_op_idem (env : ConvEnv) (v : Q3) (op : XformOp) (t : TimeCode) :
    (pushPoint env v (pushPoint env v op t).op t).op = (pushPoint env v op t).op := by
  rcases h : vecStoreVal env op.storage v with _ | w
  · have e : pushPoint env v op t = ⟨op, false, false⟩ := by
      simp [pushPoint, h]
    rw [e]
    dsimp only
    rw [e]
  · by_cases hskip : op.valueAt t = some (OpValue.v3 w)
    · have e := pushPoint_skip env v op t w h hskip
      rw [e]
      dsimp only
      rw [e]
    · have e : pushPoint env v op t = ⟨op.setValueAt t (OpValue.v3 w), true, true⟩ := by
        rcases h2 : op.valueAt t with _ | val
        · simp [pushPoint, h, h2]
        · cases val with
          | v3 u =>
            have hu : u ≠ w := fun he => hskip (by rw [h2, he])
            simp [pushPoint, h, h2, hu]
          | sc u => simp [pushPoint, h, h2]
          | m4 m => simp [pushPoint, h, h2]
      have e2 := pushPoint_skip env v (op.setValueAt t (OpValue.v3 w)) t w
        (by rw [(setValueAt_fields op t (OpValue.v3 w)).1]; exact h)
        (valueAt_setValueAt op t (OpValue.v3 w))
      rw [e]
      dsimp only
      rw [e2]

/-- Helper: writing the same scalar twice through `pushDouble` yields the
op of the first write. -/
theorem pushDouble_op_idem (env : ConvEnv) (v : Int) (op : XformOp) (t : TimeCode) :
    (pushDouble env v (pushDouble env v op t).1 t).1 = (pushDouble env v op t).1 := by
  rcases h : scalarStoreVal env op.storage v with _ | w
  · have e : pushDouble env v op t = (op, false) := by
      simp [pushDouble, h]
    rw [e]
    dsimp only
    rw [e]
  · by_cases hskip : op.valueAt none = some (OpValue.sc w)
    · have e := pushDouble_skip env v op t w h hskip
      rw [e]
      dsimp only
      rw [e]
    · have e : pushDouble env v op t = (op.setValueAt t (OpValue.sc w), true) := by
        rcases h2 : op.valueAt none with _ | val
        · simp [pushDouble, h, h2]
        · cases val with
          | sc u =>
            have hu : u ≠ w := fun he => hskip (by rw [h2, he])
            simp [pushDouble, h, h2, hu]
          | v3 q => simp [pushDouble, h, h2]
          | m4 m => simp [pushDouble, h, h2]
      rcases t with _ | τ
      · have e2 := pushDouble_skip env v (op.setValueAt none (OpValue.sc w)) none w
          (by rw [(setValueAt_fields op none (OpValue.sc w)).1]; exact h)
          (valueAt_setValueAt op none (OpValue.sc w))
        rw [e]
        dsimp only
        rw [e2]
      · have e2 : pushDouble env v (op.setValueAt (some τ) (OpValue.sc w)) (some τ)
            = ((op.setValueAt (some τ) (OpValue.sc w)).setValueAt (some τ) (OpValue.sc w),
               true) := by
          have hsk2 : (op.setValueAt (some τ) (OpValue.sc w)).valueAt none
              ≠ some (OpValue.sc w) := hskip
          rcases h2 : (op.setValueAt (some τ) (OpValue.sc w)).valueAt none with _ | val
          · simp [pushDouble, (setValueAt_fields op (some τ) (OpValue.sc w)).1, h, h2]
          · cases val with
            | sc u =>
              have hu : u ≠ w := fun he => hsk2 (by rw [h2, he])
              simp [pushDouble, (setValueAt_fields op (some τ) (OpValue.sc w)).1, h, h2, hu]
            | v3 q => simp [pushDouble, (setValueAt_fields op (some τ) (OpValue.sc w)).1, h, h2]
            | m4 m => simp [pushDouble, (setValueAt_fields op (some τ) (OpValue.sc w)).1, h, h2]
        rw [e]
        dsimp only
        rw [e2]
        dsimp only
        exact setValueAt_idem op (some τ) (OpValue.sc w)

/-- Helper: writing the same shear twice through `pushShear` yields the
op of the first write. -/
theorem pushShear_op_idem (v : Q3) (op : XformOp) (t : TimeCode) :
    (pushShear v (pushShear v op t).op t).op = (pushShear v op t).op := by
  by_cases hst : op.storage = StorageTy.matrix4d
  · by_cases hskip : op.valueAt t = some (OpValue.m4 (shearM4 v))
    · have e := pushShear_skip v op t hst hskip
      rw [e]
      dsimp only
      rw [e]
    · have e : pushShear v op t = ⟨op.setValueAt t (OpValue.m4 (shearM4 v)), false, true⟩ := by
        rcases h2 : op.valueAt t with _ | val
        · simp [pushShear, hst, h2]
        · cases val with
          | m4 m =>
            have hm : m ≠ shearM4 v := fun he => hskip (by rw [h2, he])
            simp [pushShear, hst, h2, hm]
          | v3 q => simp [pushShear, hst, h2]
          | sc u => simp [pushShear, hst, h2]
      have e2 := pushShear_skip v (op.setValueAt t (OpValue.m4 (shearM4 v))) t
        ((setValueAt_fields op t (OpValue.m4 (shearM4 v))).1.trans hst)
        (valueAt_setValueAt op t (OpValue.m4 (shearM4 v)))
      rw [e]
      dsimp only
      rw [e2]
  · have e : pushShear v op t = ⟨op, false, false⟩ := by
      cases hs : op.storage <;> simp_all [pushShear]
    rw [e]
    dsimp only
    rw [e]

/-- Helper: writing the same matrix twice through `pushMatrix` yields the
op of the first write. -/
theorem pushMatrix_op_idem (m : M4) (op : XformOp) (t : TimeCode) :
    (pushMatrix m (pushMatrix m op t).op t).op = (pushMatrix m op t).op := by
  by_cases hst : op.storage = StorageTy.matrix4d
  · by_cases hskip : op.valueAt t = some (OpValue.m4 m)
    · have e := pushMatrix_skip m op t hst hskip
      rw [e]
      dsimp only
      rw [e]
    · have e : pushMatrix m op t = ⟨op.setValueAt t (OpValue.m4 m), true, true⟩ := by
        rcases h2 : op.valueAt t with _ | val
        · simp [pushMatrix, hst, h2]
        · cases val with
          | m4 u =>
            have hm : u ≠ m := fun he => hskip (by rw [h2, he])
            simp [pushMatrix, hst, h2, hm]
          | v3 q => simp [pushMatrix, hst, h2]
          | sc u => simp [pushMatrix, hst, h2]
      have e2 := pushMatrix_skip m (op.setValueAt t (OpValue.m4 m)) t
        ((setValueAt_fields op t (OpValue.m4 m)).1.trans hst)
        (valueAt_setValueAt op t (OpValue.m4 m))
      rw [e]
      dsimp only
      rw [e2]
  · have e : pushMatrix m op t = ⟨op, false, false⟩ := by
      cases hs : op.storage <;> simp_all [pushMatrix]
    rw [e]
    dsimp only
    rw [e]

/-- Helper: the scalar codec preserves the op type. -/
theorem pushDouble_opType (env : ConvEnv) (v : Int) (op : XformOp) (t : TimeCode) :
    ((pushDouble env v op t).1).opType = op.opType := by
  unfold pushDouble
  (repeat' split) <;> first | rfl | exact (setValueAt_fields _ _ _).2.1

/-- Helper: the vector codec preserves the op type. -/
theorem pushVector_opType (env : ConvEnv) (v : Q3) (op : XformOp) (t : TimeCode) :
    ((pushVector env v op t).op).opType = op.opType := by
  unfold pushVector
  (repeat' split) <;> first | rfl | exact (setValueAt_fields _ _ _).2.1

end ALUsd

namespace ALUsd

/-- Helper: writing the same rotation twice through `pushRotation` yields
the op of the first write (the codec preserves the op type, so both calls
dispatch identically). -/
theorem pushRotation_op_idem (env : ConvEnv) (e : Euler) (op : XformOp) (t : TimeCode) :
    (pushRotation env e (pushRotation env e op t).op t).op
      = (pushRotation env e op t).op := by
  cases hty : op.opType
  case tRotateX =>
    have h1 : (pushRotation env e op t).op = (pushDouble env (env.radToDegF e.x) op t).1 := by
      simp [pushRotation, hty]
    rw [h1]
    have h2 : ((pushDouble env (env.radToDegF e.x) op t).1).opType = OpTypeE.tRotateX :=
      (pushDouble_opType env (env.radToDegF e.x) op t).trans hty
    have h3 : (pushRotation env e ((pushDouble env (env.radToDegF e.x) op t).1) t).op
        = (pushDouble env (env.radToDegF e.x)
            ((pushDouble env (env.radToDegF e.x) op t).1) t).1 := by
      simp [pushRotation, h2]
    rw [h3]
    exact pushDouble_op_idem env (env.radToDegF e.x) op t
  case tRotateY =>
    have h1 : (pushRotation env e op t).op = (pushDouble env (env.radToDegF e.y) op t).1 := by
      simp [pushRotation, hty]
    rw [h1]
    have h2 : ((pushDouble env (env.radToDegF e.y) op t).1).opType = OpTypeE.tRotateY :=
      (pushDouble_opType env (env.radToDegF e.y) op t).trans hty
    have h3 : (pushRotation env e ((pushDouble env (env.radToDegF e.y) op t).1) t).op
        = (pushDouble env (env.radToDegF e.y)
            ((pushDouble env (env.radToDegF e.y) op t).1) t).1 := by
      simp [pushRotation, h2]
    rw [h3]
    exact pushDouble_op_idem env (env.radToDegF e.y) op t
  case tRotateZ =>
    have h1 : (pushRotation env e op t).op = (pushDouble env (env.radToDegF e.z) op t).1 := by
      simp [pushRotation, hty]
    rw [h1]
    have h2 : ((pushDouble env (env.radToDegF e.z) op t).1).opType = OpTypeE.tRotateZ :=
      (pushDouble_opType env (env.radToDegF e.z) op t).trans hty
    have h3 : (pushRotation env e ((pushDouble env (env.radToDegF e.z) op t).1) t).op
        = (pushDouble env (env.radToDegF e.z)
            ((pushDouble env (env.radToDegF e.z) op t).1) t).1 := by
      simp [pushRotation, h2]
    rw [h3]
    exact pushDouble_op_idem env (env.radToDegF e.z) op t
  case tRotateXYZ =>
    have h1 : (pushRotation env e op t).op
        = (pushVector env ⟨env.radToDegF e.x, env.radToDegF e.y, env.radToDegF e.z⟩ op t).op := by
      simp [pushRotation, hty]
    rw [h1]
    have h2 : ((pushVector env ⟨env.radToDegF e.x, env.radToDegF e.y, env.radToDegF e.z⟩
        op t).op).opType = OpTypeE.tRotateXYZ :=
      (pushVector_opType env _ op t).trans hty
    have h3 : (pushRotation env e ((pushVector env
          ⟨env.radToDegF e.x, env.radToDegF e.y, env.radToDegF e.z⟩ op t).op) t).op
        = (pushVector env ⟨env.radToDegF e.x, env.radToDegF e.y, env.radToDegF e.z⟩
            ((pushVector env ⟨env.radToDegF e.x, env.radToDegF e.y, env.radToDegF e.z⟩
              op t).op) t).op := by
      simp [pushRotation, h2]
    rw [h3]
    exact pushVector_op_idem env ⟨env.radToDegF e.x, env.radToDegF e.y, env.radToDegF e.z⟩ op t
  case tRotateXZY =>
    have h1 : (pushRotation env e op t).op
        = (pushVector env ⟨env.radToDegF e.x, env.radToDegF e.y, env.radToDegF e.z⟩ op t).op := by
      simp [pushRotation, hty]
    rw [h1]
    have h2 : ((pushVector env ⟨env.radToDegF e.x, env.radToDegF e.y, env.radToDegF e.z⟩
        op t).op).opType = OpTypeE.tRotateXZY :=
      (pushVector_opType env _ op t).trans hty
    have h3 : (pushRotation env e ((pushVector env
          ⟨env.radToDegF e.x, env.radToDegF e.y, env.radToDegF e.z⟩ op t).op) t).op
        = (pushVector env ⟨env.radToDegF e.x, env.radToDegF e.y, env.radToDegF e.z⟩
            ((pushVector env ⟨env.radToDegF e.x, env.radToDegF e.y, env.radToDegF e.z⟩
              op t).op) t).op := by
      simp [pushRotation, h2]
    rw [h3]
    exact pushVector_op_idem env ⟨env.radToDegF e.x, env.radToDegF e.y, env.radToDegF e.z⟩ op t
  case tRotateYXZ =>
    have h1 : (pushRotation env e op t).op
        = (pushVector env ⟨env.radToDegF e.x, env.radToDegF e.y, env.radToDegF e.z⟩ op t).op := by
      simp [pushRotation, hty]
    rw [h1]
    have h2 : ((pushVector env ⟨env.radToDegF e.x, env.radToDegF e.y, env.radToDegF e.z⟩
        op t).op).opType = OpTypeE.tRotateYXZ :=
      (pushVector_opType env _ op t).trans hty
    have h3 : (pushRotation env e ((pushVector env
          ⟨env.radToDegF e.x, env.radToDegF e.y, env.radToDegF e.z⟩ op t).op) t).op
        = (pushVector env ⟨env.radToDegF e.x, env.radToDegF e.y, env.radToDegF e.z⟩
            ((pushVector env ⟨env.radToDegF e.x, env.radToDegF e.y, env.radToDegF e.z⟩
              op t).op) t).op := by
      simp [pushRotation, h2]
    rw [h3]
    exact pushVector_op_idem env ⟨env.radToDegF e.x, env.radToDegF e.y, env.radToDegF e.z⟩ op t
  case tRotateYZX =>
    have h1 : (pushRotation env e op t).op
        = (pushVector env ⟨env.radToDegF e.x, env.radToDegF e.y, env.radToDegF e.z⟩ op t).op := by
      simp [pushRotation, hty]
    rw [h1]
    have h2 : ((pushVector env ⟨env.radToDegF e.x, env.radToDegF e.y, env.radToDegF e.z⟩
        op t).op).opType = OpTypeE.tRotateYZX :=
      (pushVector_opType env _ op t).trans hty
    have h3 : (pushRotation env e ((pushVector env
          ⟨env.radToDegF e.x, env.radToDegF e.y, env.radToDegF e.z⟩ op t).op) t).op
        = (pushVector env ⟨env.radToDegF e.x, env.radToDegF e.y, env.radToDegF e.z⟩
            ((pushVector env ⟨env.radToDegF e.x, env.radToDegF e.y, env.radToDegF e.z⟩
              op t).op) t).op := by
      simp [pushRotation, h2]
    rw [h3]
    exact pushVector_op_idem env ⟨env.radToDegF e.x, env.radToDegF e.y, env.radToDegF e.z⟩ op t
  case tRotateZXY =>
    have h1 : (pushRotation env e op t).op
        = (pushVector env ⟨env.radToDegF e.x, env.radToDegF e.y, env.radToDegF e.z⟩ op t).op := by
      simp [pushRotation, hty]
    rw [h1]
    have h2 : ((pushVector env ⟨env.radToDegF e.x, env.radToDegF e.y, env.radToDegF e.z⟩
        op t).op).opType = OpTypeE.tRotateZXY :=
      (pushVector_opType env _ op t).trans hty
    have h3 : (pushRotation env e ((pushVector env
          ⟨env.radToDegF e.x, env.radToDegF e.y, env.radToDegF e.z⟩ op t).op) t).op
        = (pushVector env ⟨env.radToDegF e.x, env.radToDegF e.y, env.radToDegF e.z⟩
            ((pushVector env ⟨env.radToDegF e.x, env.radToDegF e.y, env.radToDegF e.z⟩
              op t).op) t).op := by
      simp [pushRotation, h2]
    rw [h3]
    exact pushVector_op_idem env ⟨env.radToDegF e.x, env.radToDegF e.y, env.radToDegF e.z⟩ op t
  case tRotateZYX =>
    have h1 : (pushRotation env e op t).op
        = (pushVector env ⟨env.radToDegF e.x, env.radToDegF e.y, env.radToDegF e.z⟩ op t).op := by
      simp [pushRotation, hty]
    rw [h1]
    have h2 : ((pushVector env ⟨env.radToDegF e.x, env.radToDegF e.y, env.radToDegF e.z⟩
        op t).op).opType = OpTypeE.tRotateZYX :=
      (pushVector_opType env _ op t).trans hty
    have h3 : (pushRotation env e ((pushVector env
          ⟨env.radToDegF e.x, env.radToDegF e.y, env.radToDegF e.z⟩ op t).op) t).op
        = (pushVector env ⟨env.radToDegF e.x, env.radToDegF e.y, env.radToDegF e.z⟩
            ((pushVector env ⟨env.radToDegF e.x, env.radToDegF e.y, env.radToDegF e.z⟩
              op t).op) t).op := by
      simp [pushRotation, h2]
    rw [h3]
    exact pushVector_op_idem env ⟨env.radToDegF e.x, env.radToDegF e.y, env.radToDegF e.z⟩ op t
  case tTranslate =>
    have h1 : pushRotation env e op t = ⟨op, false, false⟩ := by
      simp [pushRotation, hty]
    rw [h1]
    dsimp only
    rw [h1]
  case tScale =>
    have h1 : pushRotation env e op t = ⟨op, false, false⟩ := by
      simp [pushRotation, hty]
    rw [h1]
    dsimp only
    rw [h1]
  case tTransform =>
    have h1 : pushRotation env e op t = ⟨op, false, false⟩ := by
      simp [pushRotation, hty]
    rw [h1]
    dsimp only
    rw [h1]

/-- Helper: one `pushToPrim` loop write is idempotent at the op level. -/
theorem writeOp_idem (env : ConvEnv) (menv : MatEnv) (host : HostVals) (rofu : Q4)
    (pptm : Bool) (t : TimeCode) (c : OpClass) (op : XformOp) :
    writeOp env menv host rofu pptm t c (writeOp env menv host rofu pptm t c op)
      = writeOp env menv host rofu pptm t c op := by
  rcases c with ⟨nm, ty, inv⟩
  cases inv
  case true => rfl
  case false =>
    cases nm
    case translate => exact pushVector_op_idem env host.translationValue op t
    case pivot => exact pushPoint_op_idem env host.rotatePivotValue op t
    case rotatePivotTranslate =>
      exact pushPoint_op_idem env host.rotatePivotTranslationValue op t
    case rotatePivot => exact pushPoint_op_idem env host.rotatePivotValue op t
    case rotate => exact pushRotation_op_idem env host.rotationValue op t
    case rotateAxis => exact pushVector_op_idem env (menv.quatToEulerDeg rofu) op t
    case scalePivotTranslate =>
      exact pushVector_op_idem env host.scalePivotTranslationValue op t
    case scalePivot => exact pushPoint_op_idem env host.scalePivotValue op t
    case shear => exact pushShear_op_idem host.shearValue op t
    case scale => exact pushVector_op_idem env host.scaleValue op t
    case transform =>
      cases pptm
      case false => rfl
      case true =>
        by_cases hs : op.storage = StorageTy.matrix4d
        · have e : writeOp env menv host rofu true t ⟨TokName.transform, ty, false⟩ op
              = op.setValueAt t (OpValue.m4 (menv.composeMat host)) := by
            simp [writeOp, hs]
          rw [e]
          have e2 : writeOp env menv host rofu true t ⟨TokName.transform, ty, false⟩
              (op.setValueAt t (OpValue.m4 (menv.composeMat host)))
              = (op.setValueAt t (OpValue.m4 (menv.composeMat host))).setValueAt t
                  (OpValue.m4 (menv.composeMat host)) := by
            simp [writeOp, (setValueAt_fields op t (OpValue.m4 (menv.composeMat host))).1, hs]
          rw [e2]
          exact setValueAt_idem op t (OpValue.m4 (menv.composeMat host))
        · have e : writeOp env menv host rofu true t ⟨TokName.transform, ty, false⟩ op
              = op := by
            simp [writeOp, hs]
          rw [e, e]
    case other => rfl

/-- Helper: zipping a pairwise-idempotent write over its own output is
the identity. -/
theorem zipWith_self_idem {α β : Type} (f : α → β → β)
    (hf : ∀ a b, f a (f a b) = f a b) :
    ∀ (l : List α) (m : List β),
      List.zipWith f l (List.zipWith f l m) = List.zipWith f l m := by
  intro l
  induction l with
  | nil => intro m; rfl
  | cons a l ih =>
    intro m
    cases m with
    | nil => rfl
    | cons b m =>
      simp only [List.zipWith_cons_cons]
      rw [hf a b, ih m]

/-- Helper: the first components of a zip do not see a rewrite of the
second list, as long as its length is kept. -/
theorem map_fst_zip_zipWith {α β γ : Type} (f : α → β → β) (g : α → γ) :
    ∀ (l : List α) (m : List β),
      (l.zip (List.zipWith f l m)).map (fun p => g p.1)
        = (l.zip m).map (fun p => g p.1) := by
  intro l
  induction l with
  | nil => intro m; rfl
  | cons a l ih =>
    intro m
    cases m with
    | nil => rfl
    | cons b m =>
      simp only [List.zipWith_cons_cons, List.zip_cons_cons, List.map_cons]
      rw [ih m]

/-- Helper: one component resynchronization touches nothing but its
from-source and tweak slots. -/
theorem syncComp_frame (s : TMState) (c : CompF) :
    (syncComp s c).host = s.host ∧ (syncComp s c).time = s.time
    ∧ (syncComp s c).flags = s.flags ∧ (syncComp s c).xformops = s.xformops
    ∧ (syncComp s c).orderedOps = s.orderedOps
    ∧ (syncComp s c).rotateOrientationFromUsd = s.rotateOrientationFromUsd := by
  cases c <;> exact ⟨rfl, rfl, rfl, rfl, rfl, rfl⟩

/-- Helper: the resynchronization fold touches nothing but from-source
and tweak slots. -/
theorem syncFold_frame :
    ∀ (l : List CompF) (s : TMState),
      (syncFold l s).host = s.host ∧ (syncFold l s).time = s.time
      ∧ (syncFold l s).flags = s.flags ∧ (syncFold l s).xformops = s.xformops
      ∧ (syncFold l s).orderedOps = s.orderedOps
      ∧ (syncFold l s).rotateOrientationFromUsd = s.rotateOrientationFromUsd := by
  intro l
  induction l with
  | nil => intro s; exact ⟨rfl, rfl, rfl, rfl, rfl, rfl⟩
  | cons c l ih =>
    intro s
    have h1 := syncComp_frame s c
    have h2 := ih (syncComp s c)
    exact ⟨h2.1.trans h1.1, h2.2.1.trans h1.2.1, h2.2.2.1.trans h1.2.2.1,
           h2.2.2.2.1.trans h1.2.2.2.1, h2.2.2.2.2.1.trans h1.2.2.2.2.1,
           h2.2.2.2.2.2.trans h1.2.2.2.2.2⟩

/-- Whether a component's bookkeeping is already synchronized: the
from-source slot holds the host value and the tweak is zero. -/
def syncedAt (s : TMState) : CompF → Prop
  | CompF.cTranslation =>
    s.translationFromUsd = s.host.translationValue ∧ s.translationTweak = zero3
  | CompF.cRotation =>
    s.rotationFromUsd = s.host.rotationValue ∧ s.rotationTweak = zeroE
  | CompF.cScale => s.scaleFromUsd = s.host.scaleValue ∧ s.scaleTweak = zero3
  | CompF.cShear => s.shearFromUsd = s.host.shearValue ∧ s.shearTweak = zero3
  | CompF.cScalePivot =>
    s.scalePivotFromUsd = s.host.scalePivotValue ∧ s.scalePivotTweak = zero3
  | CompF.cScalePivotTranslation =>
    s.scalePivotTranslationFromUsd = s.host.scalePivotTranslationValue
      ∧ s.scalePivotTranslationTweak = zero3
  | CompF.cRotatePivot =>
    s.rotatePivotFromUsd = s.host.rotatePivotValue ∧ s.rotatePivotTweak = zero3
  | CompF.cRotatePivotTranslation =>
    s.rotatePivotTranslationFromUsd = s.host.rotatePivotTranslationValue
      ∧ s.rotatePivotTranslationTweak = zero3

/-- Helper: resynchronizing a component synchronizes it. -/
theorem syncComp_synced (s : TMState) (c : CompF) : syncedAt (syncComp s c) c := by
  cases c <;> exact ⟨rfl, rfl⟩

/-- Helper: resynchronizing one component keeps every synchronized
component synchronized. -/
theorem syncComp_keeps_synced (s : TMState) (c c₂ : CompF)
    (h : syncedAt s c₂) : syncedAt (syncComp s c) c₂ := by
  cases c <;> cases c₂ <;>
    first
      | exact ⟨rfl, rfl⟩
      | exact ⟨h.1, h.2⟩

/-- Helper: the resynchronization fold keeps synchronized components
synchronized. -/
theorem syncFold_keeps_synced :
    ∀ (l : List CompF) (s : TMState) (c₂ : CompF),
      syncedAt s c₂ → syncedAt (syncFold l s) c₂ := by
  intro l
  induction l with
  | nil => intro s c₂ h; exact h
  | cons c l ih =>
    intro s c₂ h
    exact ih (syncComp s c) c₂ (syncComp_keeps_synced s c c₂ h)

/-- Helper: after the resynchronization fold, every visited component is
synchronized. -/
theorem syncFold_synced :
    ∀ (l : List CompF) (s : TMState) (c : CompF),
      c ∈ l → syncedAt (syncFold l s) c := by
  intro l
  induction l with
  | nil => intro s c h; exact absurd h (List.not_mem_nil c)
  | cons d l ih =>
    intro s c h
    rcases List.mem_cons.mp h with he | hm
    · subst he
      exact syncFold_keeps_synced l (syncComp s c) c (syncComp_synced s c)
    · exact ih (syncComp s d) c hm

/-- Helper: resynchronizing an already synchronized component changes
nothing. -/
theorem syncComp_noop (s : TMState) (c : CompF) (h : syncedAt s c) :
    syncComp s c = s := by
  cases c
  case cTranslation =>
    show ({ s with
        translationFromUsd := s.host.translationValue
        translationTweak := zero3 } : TMState) = s
    rw [← h.1, ← h.2]
  case cRotation =>
    show ({ s with
        rotationFromUsd := s.host.rotationValue
        rotationTweak := zeroE } : TMState) = s
    rw [← h.1, ← h.2]
  case cScale =>
    show ({ s with
        scaleFromUsd := s.host.scaleValue
        scaleTweak := zero3 } : TMState) = s
    rw [← h.1, ← h.2]
  case cShear =>
    show ({ s with
        shearFromUsd := s.host.shearValue
        shearTweak := zero3 } : TMState) = s
    rw [← h.1, ← h.2]
  case cScalePivot =>
    show ({ s with
        scalePivotFromUsd := s.host.scalePivotValue
        scalePivotTweak := zero3 } : TMState) = s
    rw [← h.1, ← h.2]
  case cScalePivotTranslation =>
    show ({ s with
        scalePivotTranslationFromUsd := s.host.scalePivotTranslationValue
        scalePivotTranslationTweak := zero3 } : TMState) = s
    rw [← h.1, ← h.2]
  case cRotatePivot =>
    show ({ s with
        rotatePivotFromUsd := s.host.rotatePivotValue
        rotatePivotTweak := zero3 } : TMState) = s
    rw [← h.1, ← h.2]
  case cRotatePivotTranslation =>
    show ({ s with
        rotatePivotTranslationFromUsd := s.host.rotatePivotTranslationValue
        rotatePivotTranslationTweak := zero3 } : TMState) = s
    rw [← h.1, ← h.2]

/-- Helper: the resynchronization fold over synchronized components
changes nothing. -/
theorem syncFold_noop :
    ∀ (l : List CompF) (s : TMState), (∀ c ∈ l, syncedAt s c) → syncFold l s = s := by
  intro l
  induction l with
  | nil => intro s h; rfl
  | cons c l ih =>
    intro s h
    have h1 : syncComp s c = s := syncComp_noop s c (h c (List.mem_cons_self c l))
    show syncFold l (syncComp s c) = s
    rw [h1]
    exact ih s fun d hd => h d (List.mem_cons_of_mem c hd)

/-- Helper: synchronization does not look at the live op list. -/
theorem syncedAt_set_xformops (s : TMState) (X : List XformOp) (c : CompF)
    (h : syncedAt s c) : syncedAt { s with xformops := X } c := by
  cases c <;> exact ⟨h.1, h.2⟩

/-- Helper: `pushToPrim` written out as resynchronization fold plus op
rewrite. -/
theorem pushToPrim_shape (env : ConvEnv) (menv : MatEnv) (s : TMState) :
    pushToPrim env menv s
      = { syncFold (List.flatten ((s.orderedOps.zip s.xformops).map fun p => syncsOf p.1)) s
          with xformops := List.zipWith (writeOp env menv s.host s.rotateOrientationFromUsd
            s.flags.pushPrimToMatrix s.time) s.orderedOps s.xformops } := rfl

/-- Helper: the fields of the state after one `pushToPrim` pass that the
next pass reads. -/
theorem pushToPrim_fields (env : ConvEnv) (menv : MatEnv) (s : TMState) :
    (pushToPrim env menv s).orderedOps = s.orderedOps
    ∧ (pushToPrim env menv s).host = s.host
    ∧ (pushToPrim env menv s).time = s.time
    ∧ (pushToPrim env menv s).flags = s.flags
    ∧ (pushToPrim env menv s).rotateOrientationFromUsd = s.rotateOrientationFromUsd
    ∧ (pushToPrim env menv s).xformops
        = List.zipWith (writeOp env menv s.host s.rotateOrientationFromUsd
            s.flags.pushPrimToMatrix s.time) s.orderedOps s.xformops := by
  have hfr := syncFold_frame
      (List.flatten ((s.orderedOps.zip s.xformops).map fun p => syncsOf p.1)) s
  exact ⟨hfr.2.2.2.2.1, hfr.1, hfr.2.1, hfr.2.2.1, hfr.2.2.2.2.2, rfl⟩

/-- Helper: `pushToPrim` is idempotent — a second pass with no
intervening host change rewrites every op to itself and resynchronizes
already synchronized bookkeeping. -/
theorem pushToPrim_idem (env : ConvEnv) (menv : MatEnv) (s : TMState) :
    pushToPrim env menv (pushToPrim env menv s) = pushToPrim env menv s := by
  have hf := pushToPrim_fields env menv s
  have hsync : ∀ c ∈ (List.flatten ((s.orderedOps.zip s.xformops).map fun p => syncsOf p.1)),
      syncedAt (pushToPrim env menv s) c := by
    intro c hc
    exact syncedAt_set_xformops _ _ c (syncFold_synced
      (List.flatten ((s.orderedOps.zip s.xformops).map fun p => syncsOf p.1)) s c hc)
  rw [pushToPrim_shape env menv (pushToPrim env menv s)]
  rw [hf.1, hf.2.1, hf.2.2.1, hf.2.2.2.1, hf.2.2.2.2.1, hf.2.2.2.2.2]
  rw [map_fst_zip_zipWith (writeOp env menv s.host s.rotateOrientationFromUsd
        s.flags.pushPrimToMatrix s.time) syncsOf s.orderedOps s.xformops]
  rw [zipWith_self_idem (writeOp env menv s.host s.rotateOrientationFromUsd
        s.flags.pushPrimToMatrix s.time)
      (writeOp_idem env menv s.host s.rotateOrientationFromUsd
        s.flags.pushPrimToMatrix s.time) s.orderedOps s.xformops]
  rw [syncFold_noop (List.flatten ((s.orderedOps.zip s.xformops).map fun p => syncsOf p.1))
      (pushToPrim env menv s) hsync]
  rw [← hf.2.2.2.2.2]

/-- Claim C3 (amended): in the current revision every codec write
compares the new value against the currently stored value and skips the
store when they are equal — `pushVector`, `pushPoint` and `pushMatrix`
report success without writing, `pushDouble` reports no store (it
compares at the default time, as the source reads the old value with no
time argument), `pushShear` skips while returning its constant false —
and consequently `pushToPrim` is idempotent: a second pass with no
intervening set-component call leaves the whole state, the operation
list included, unchanged.  The older revision's `pushVector` stores
unconditionally (see the counterexample), so the codec part holds for
the current revision only. -/
theorem claim3_current_push_skips_and_pushToPrim_idempotent :
    (∀ (env : ConvEnv) (v : Q3) (op : XformOp) (t : TimeCode) (w : Q3),
      vecStoreVal env op.storage v = some w →
      op.valueAt t = some (OpValue.v3 w) → pushVector env v op t = ⟨op, true, false⟩)
    ∧ (∀ (env : ConvEnv) (v : Q3) (op : XformOp) (t : TimeCode) (w : Q3),
      vecStoreVal env op.storage v = some w →
      op.valueAt t = some (OpValue.v3 w) → pushPoint env v op t = ⟨op, true, false⟩)
    ∧ (∀ (env : ConvEnv) (v : Int) (op : XformOp) (t : TimeCode) (w : Int),
      scalarStoreVal env op.storage v = some w →
      op.valueAt none = some (OpValue.sc w) → pushDouble env v op t = (op, false))
    ∧ (∀ (v : Q3) (op : XformOp) (t : TimeCode),
      op.storage = StorageTy.matrix4d →
      op.valueAt t = some (OpValue.m4 (shearM4 v)) →
      pushShear v op t = ⟨op, false, false⟩)
    ∧ (∀ (m : M4) (op : XformOp) (t : TimeCode),
      op.storage = StorageTy.matrix4d →
      op.valueAt t = some (OpValue.m4 m) → pushMatrix m op t = ⟨op, true, false⟩)
    ∧ (∀ (env : ConvEnv) (menv : MatEnv) (s : TMState),
      pushToPrim env menv (pushToPrim env menv s) = pushToPrim env menv s) :=
  ⟨pushVector_skip, pushPoint_skip, pushDouble_skip, pushShear_skip, pushMatrix_skip,
   pushToPrim_idem⟩

end ALUsd
